import Mathlib

/-!
Verification of the goal-planner backend (`planner_service.py`, `fast.py`,
`main_cli.py`, `main_api.py`).  The Python code is shallowly embedded:
JSON values are an inductive type, `json.loads` is a fuel-indexed
recursive-descent function on character lists, dates are
`(year, month, day)` records with the CPython proleptic-Gregorian ordinal,
and code that can raise exceptions returns `Except PyErr`.
-/

namespace GoalPlanner

/-- Python exception classes that the embedded code can raise. -/
inductive PyErr where
  | valueError
  | typeError
  | attributeError
  | nameError
  | overflowError
  deriving DecidableEq

/-- JSON values as produced by `json.loads`.  Numbers are modelled as exact
rationals (CPython ints/floats agree with this on every number appearing in
a theorem below). -/
inductive Json where
  | null
  | bool (b : Bool)
  | num (q : ℚ)
  | str (s : String)
  | arr (xs : List Json)
  | obj (kvs : List (String × Json))

/-- Whitespace skipped by `json.loads` (space, tab, LF, CR). -/
def isJsonWs (c : Char) : Bool :=
  c == ' ' || c == '\t' || c == '\n' || c == '\r'

/-- Drop leading JSON whitespace. -/
def skipJsonWs : List Char → List Char
  | [] => []
  | c :: cs => if isJsonWs c then skipJsonWs cs else c :: cs

/-- Numeric value of a hexadecimal digit, if any. -/
def hexVal (c : Char) : Option Nat :=
  if c.isDigit then some (c.toNat - '0'.toNat)
  else if 'a' ≤ c ∧ c ≤ 'f' then some (c.toNat - 'a'.toNat + 10)
  else if 'A' ≤ c ∧ c ≤ 'F' then some (c.toNat - 'A'.toNat + 10)
  else none

/-- Body of a JSON string after the opening quote: returns the decoded
characters and the remainder after the closing quote.  Mirrors the strict
`json.loads` scanner: raw control characters are rejected, the escapes
`\" \\ \/ \b \f \n \r \t \uXXXX` are decoded, anything else fails. -/
def parseJStr : List Char → Option (List Char × List Char)
  | [] => none
  | c :: cs =>
    if c = '"' then some ([], cs)
    else if c = '\\' then
      match cs with
      | [] => none
      | e :: cs1 =>
        if e = '"' then (parseJStr cs1).map (fun p => ('"' :: p.1, p.2))
        else if e = '\\' then (parseJStr cs1).map (fun p => ('\\' :: p.1, p.2))
        else if e = '/' then (parseJStr cs1).map (fun p => ('/' :: p.1, p.2))
        else if e = 'b' then (parseJStr cs1).map (fun p => ('\x08' :: p.1, p.2))
        else if e = 'f' then (parseJStr cs1).map (fun p => ('\x0C' :: p.1, p.2))
        else if e = 'n' then (parseJStr cs1).map (fun p => ('\n' :: p.1, p.2))
        else if e = 'r' then (parseJStr cs1).map (fun p => ('\r' :: p.1, p.2))
        else if e = 't' then (parseJStr cs1).map (fun p => ('\t' :: p.1, p.2))
        else if e = 'u' then
          match cs1 with
          | h1 :: h2 :: h3 :: h4 :: cs2 =>
            match hexVal h1, hexVal h2, hexVal h3, hexVal h4 with
            | some a, some b, some c3, some d =>
              let n := ((a * 16 + b) * 16 + c3) * 16 + d
              let ch := if h : n.isValidChar then Char.ofNatAux n h else '�'
              (parseJStr cs2).map (fun p => (ch :: p.1, p.2))
            | _, _, _, _ => none
          | _ => none
        else none
    else if c.toNat < 32 then none
    else (parseJStr cs).map (fun p => (c :: p.1, p.2))

/-- Longest leading run of decimal digits. -/
def takeDigits : List Char → (List Char × List Char)
  | [] => ([], [])
  | c :: cs =>
    if c.isDigit then
      let p := takeDigits cs
      (c :: p.1, p.2)
    else ([], c :: cs)

/-- Natural-number value of a digit string. -/
def digitsVal (ds : List Char) : Nat :=
  ds.foldl (fun acc c => acc * 10 + (c.toNat - '0'.toNat)) 0

/-- JSON number grammar `-?(0|[1-9][0-9]*)(\.[0-9]+)?([eE][+-]?[0-9]+)?`,
returning its exact rational value and the remaining input. -/
def parseJNum (cs : List Char) : Option (ℚ × List Char) :=
  let (sgn, cs1) : Int × List Char :=
    match cs with
    | '-' :: rest => (-1, rest)
    | rest => (1, rest)
  match cs1 with
  | [] => none
  | c :: rest =>
    if ¬ c.isDigit then none
    else
      let (intDigits, cs2) : List Char × List Char :=
        if c = '0' then (['0'], rest)
        else takeDigits (c :: rest)
      let (fracDigits, cs3) : List Char × List Char :=
        match cs2 with
        | '.' :: r =>
          match takeDigits r with
          | ([], _) => ([], cs2)
          | (ds, r2) => (ds, r2)
        | _ => ([], cs2)
      let (expVal, cs4) : Option Int × List Char :=
        match cs3 with
        | e :: r =>
          if e = 'e' ∨ e = 'E' then
            let (esgn, r1) : Int × List Char :=
              match r with
              | '+' :: r2 => (1, r2)
              | '-' :: r2 => (-1, r2)
              | r2 => (1, r2)
            match takeDigits r1 with
            | ([], _) => (none, cs3)
            | (ds, r2) => (some (esgn * digitsVal ds), r2)
          else (none, cs3)
        | [] => (none, cs3)
      let mant : Int := sgn * (digitsVal intDigits * 10 ^ fracDigits.length + digitsVal fracDigits)
      let texp : Int := (expVal.getD 0) - fracDigits.length
      let q : ℚ :=
        if 0 ≤ texp then mkRat (mant * 10 ^ texp.toNat) 1
        else mkRat mant (10 ^ (-texp).toNat)
      some (q, cs4)

/-- CPython `dict` insertion: a repeated key keeps its original position and
takes the new value. -/
def objInsert (kvs : List (String × Json)) (k : String) (v : Json) :
    List (String × Json) :=
  match kvs with
  | [] => [(k, v)]
  | (k', v') :: rest => if k' = k then (k, v) :: rest else (k', v') :: objInsert rest k v

/-- Members of a JSON object after the opening brace (first member not yet
consumed), parameterised by the value-level recursion `pv`. -/
def parseMembersAux (pv : List Char → Option (Json × List Char)) :
    Nat → List Char → List (String × Json) →
    Option (List (String × Json) × List Char)
  | 0, _, _ => none
  | fuel + 1, cs, acc =>
    match skipJsonWs cs with
    | '"' :: cs1 =>
      match parseJStr cs1 with
      | none => none
      | some (key, r1) =>
        match skipJsonWs r1 with
        | ':' :: r2 =>
          match pv r2 with
          | none => none
          | some (v, r3) =>
            let acc1 := objInsert acc (String.mk key) v
            match skipJsonWs r3 with
            | ',' :: r4 => parseMembersAux pv fuel r4 acc1
            | '}' :: r4 => some (acc1, r4)
            | _ => none
        | _ => none
    | _ => none

/-- Items of a JSON array after the opening bracket (first item not yet
consumed), parameterised by the value-level recursion `pv`. -/
def parseItemsAux (pv : List Char → Option (Json × List Char)) :
    Nat → List Char → List Json → Option (List Json × List Char)
  | 0, _, _ => none
  | fuel + 1, cs, acc =>
    match pv cs with
    | none => none
    | some (v, r1) =>
      match skipJsonWs r1 with
      | ',' :: r2 => parseItemsAux pv fuel r2 (acc ++ [v])
      | ']' :: r2 => some (acc ++ [v], r2)
      | _ => none

/-- One JSON value (with leading whitespace), fuel-indexed on the nesting
depth.  With fuel `n + 1` it parses every value of depth at most `n`, so the
top-level entry point below never exhausts its fuel. -/
def parseValueAux : Nat → List Char → Option (Json × List Char)
  | 0, _ => none
  | fuel + 1, cs =>
    match skipJsonWs cs with
    | [] => none
    | c :: cs1 =>
      if c = '{' then
        match skipJsonWs cs1 with
        | '}' :: r => some (.obj [], r)
        | cs2 => (parseMembersAux (parseValueAux fuel) (cs2.length + 1) cs2 []).map
            (fun p => (.obj p.1, p.2))
      else if c = '[' then
        match skipJsonWs cs1 with
        | ']' :: r => some (.arr [], r)
        | cs2 => (parseItemsAux (parseValueAux fuel) (cs2.length + 1) cs2 []).map
            (fun p => (.arr p.1, p.2))
      else if c = '"' then
        (parseJStr cs1).map (fun p => (.str (String.mk p.1), p.2))
      else if c = 't' then
        match cs1 with
        | 'r' :: 'u' :: 'e' :: r => some (.bool true, r)
        | _ => none
      else if c = 'f' then
        match cs1 with
        | 'a' :: 'l' :: 's' :: 'e' :: r => some (.bool false, r)
        | _ => none
      else if c = 'n' then
        match cs1 with
        | 'u' :: 'l' :: 'l' :: r => some (.null, r)
        | _ => none
      else if c = '-' ∨ c.isDigit then
        (parseJNum (c :: cs1)).map (fun p => (.num p.1, p.2))
      else none

/-- Model of `json.loads` on a character list: one value surrounded by
optional whitespace; trailing data is an error. -/
def jsonLoadsL (cs : List Char) : Option Json :=
  match parseValueAux (cs.length + 1) cs with
  | some (v, rest) =>
    match skipJsonWs rest with
    | [] => some v
    | _ => none
  | none => none

/-- Model of `json.loads`. -/
def jsonLoads (s : String) : Option Json :=
  jsonLoadsL s.data

/-! ## String utilities shared by the extraction and time-parsing code -/

/-- Whitespace class `\s` of the `re` module (space, tab, LF, CR, VT, FF). -/
def isPyWs (c : Char) : Bool :=
  c == ' ' || c == '\t' || c == '\n' || c == '\r' || c == '\x0B' || c == '\x0C'

/-- Drop leading `\s*`. -/
def skipPyWs : List Char → List Char
  | [] => []
  | c :: cs => if isPyWs c then skipPyWs cs else c :: cs

/-- Strip a literal from the front of the input, if present. -/
def stripLit : List Char → List Char → Option (List Char)
  | [], cs => some cs
  | _, [] => none
  | p :: ps, c :: cs => if p = c then stripLit ps cs else none

/-- Index of the first occurrence of a character (`str.find`). -/
def idxOf (c : Char) : List Char → Option Nat
  | [] => none
  | c' :: cs => if c' = c then some 0 else (idxOf c cs).map Nat.succ

/-- Index of the last occurrence of a character (`str.rfind`). -/
def lastIdxOf (c : Char) (cs : List Char) : Option Nat :=
  (idxOf c cs.reverse).map (fun i => cs.length - 1 - i)

/-- After a comma: skip `\s*` and demand one of the target characters,
returning it and the remainder.  This is exactly the backtracking behaviour
of `,\s*(\}|\])`: once a non-whitespace, non-target character is reached no
shorter whitespace run can succeed either. -/
def wsThenAny (targets : List Char) : List Char → Option (Char × List Char)
  | [] => none
  | c :: cs =>
    if targets.contains c then some (c, cs)
    else if isPyWs c then wsThenAny targets cs
    else none

/-- One global pass of `re.sub(r',\s*(X)', r'\1', s)` for target characters
`X`, fuel-indexed; matching resumes after each replacement, as `re.sub`
does.  Fuel `length + 1` (provided by the wrappers) never runs out. -/
def subCommaFuel (targets : List Char) : Nat → List Char → List Char
  | 0, cs => cs
  | _ + 1, [] => []
  | fuel + 1, c :: cs =>
    if c = ',' then
      match wsThenAny targets cs with
      | some (b, rest) => b :: subCommaFuel targets fuel rest
      | none => ',' :: subCommaFuel targets fuel cs
    else c :: subCommaFuel targets fuel cs

/-- `re.sub(r',\s*(\}|\])', r'\1', s)` (planner_service.py and main_cli.py). -/
def subTrailingCommas (cs : List Char) : List Char :=
  subCommaFuel ['}', ']'] (cs.length + 1) cs

/-- `re.sub(r',\s*}', '}', s)` (fast.py). -/
def subCommaBrace (cs : List Char) : List Char :=
  subCommaFuel ['}'] (cs.length + 1) cs

/-- `re.sub(r',\s*]', ']', s)` (fast.py). -/
def subCommaBracket (cs : List Char) : List Char :=
  subCommaFuel [']'] (cs.length + 1) cs

/-- Drop up to, but not including, the next newline (`.` does not match
`\n` without `re.DOTALL`). -/
def dropToEol : List Char → List Char
  | [] => []
  | c :: cs => if c = '\n' then c :: cs else dropToEol cs

/-- `re.sub(r'//.*', '', s)` (fast.py): delete from each `//` to the end of
its line. -/
def lineCommentsFuel : Nat → List Char → List Char
  | 0, cs => cs
  | _ + 1, [] => []
  | fuel + 1, c :: cs =>
    match c, cs with
    | '/', '/' :: cs1 => lineCommentsFuel fuel (dropToEol cs1)
    | _, _ => c :: lineCommentsFuel fuel cs

/-- Wrapper for the comment-removal pass. -/
def removeLineComments (cs : List Char) : List Char :=
  lineCommentsFuel (cs.length + 1) cs

/-! ## The two JSON-extraction functions

`planner_service._extract_valid_json_from_response` first tries the regex
`` ```json\s*(\{.*?\})\s*``` `` with `re.DOTALL`, falling back to the span
from the first `{` to the last `}`; `fast.extract_valid_json` strips the
fences only when the text literally starts/ends with them and always takes
the first-`{`-to-last-`}` span. -/

/-- After the non-greedy group's opening brace: find the shortest body whose
closing `}` is followed by `\s*` and three backticks. -/
def fenceTail (cs : List Char) : Bool :=
  match skipPyWs cs with
  | a :: b :: c :: _ => a == '\x60' && b == '\x60' && c == '\x60'
  | _ => false

/-- Scan for the first `}` whose tail matches `\s*` three-backticks; returns
the group body including that brace. -/
def groupScan (acc : List Char) : List Char → Option (List Char)
  | [] => none
  | c :: cs =>
    if c = '}' && fenceTail cs then some (acc.reverse ++ ['}'])
    else groupScan (c :: acc) cs

/-- Attempt the fenced-block regex at exactly this position. -/
def fencedAt (cs : List Char) : Option (List Char) :=
  match stripLit ("```json".data) cs with
  | none => none
  | some r1 =>
    match skipPyWs r1 with
    | '{' :: r2 => (groupScan [] r2).map (fun g => '{' :: g)
    | _ => none

/-- Leftmost match of `` ```json\s*(\{.*?\})\s*``` `` (`re.search`),
returning the captured group. -/
def findFencedGroup : List Char → Option (List Char)
  | [] => none
  | c :: cs =>
    match fencedAt (c :: cs) with
    | some g => some g
    | none => findFencedGroup cs

/-- The first-`{`-to-last-`}` fallback of planner_service (requires the last
`}` strictly after the first `{`). -/
def braceSpan (cs : List Char) : Option (List Char) :=
  match idxOf '{' cs, lastIdxOf '}' cs with
  | some i, some j => if i < j then some ((cs.drop i).take (j + 1 - i)) else none
  | _, _ => none

/-- The candidate string `json_str` selected by
`planner_service._extract_valid_json_from_response`: the regex capture, or
else the first-`{`-to-last-`}` span. -/
def psCandidate (cs : List Char) : Option (List Char) :=
  match findFencedGroup cs with
  | some g => some g
  | none => braceSpan cs

/-- `planner_service._extract_valid_json_from_response` (also
`main_cli._extract_valid_json_from_response`, which differs only in a log
line): regex or brace-span candidate, then trailing-comma repair, then
`json.loads` with `None` on decode errors. -/
def extractValidJsonPS (responseText : String) : Option Json :=
  match psCandidate responseText.data with
  | none => none
  | some js => jsonLoadsL (subTrailingCommas js)

/-- The first-`{`-to-last-`}` span of fast.py (no `end > start` check: an
inverted span yields the empty slice, which then fails to parse). -/
def braceSpanFast (cs : List Char) : Option (List Char) :=
  match idxOf '{' cs, lastIdxOf '}' cs with
  | some i, some j => some ((cs.drop i).take (j + 1 - i))
  | _, _ => none

/-- The candidate string `cleaned_response` selected by
`fast.extract_valid_json` before its repair passes: fences stripped when
literally at the ends, then the first-`{`-to-last-`}` span. -/
def fastCandidate (cs : List Char) : Option (List Char) :=
  let cs1 :=
    match stripLit ("```json".data) cs with
    | some r => r
    | none => cs
  let cs2 := if ("```".data).isSuffixOf cs1 then cs1.take (cs1.length - 3) else cs1
  braceSpanFast cs2

/-- The repair passes of `fast.extract_valid_json`: delete `//` line
comments, then remove trailing commas before `}` and before `]`. -/
def fastRepair (cs : List Char) : List Char :=
  subCommaBracket (subCommaBrace (removeLineComments cs))

/-- `fast.extract_valid_json`: strip the fences only if literally present at
the ends, take the brace span, repair it, then `json.loads`; every failure
path returns `None`. -/
def extractValidJsonFast (responseText : String) : Option Json :=
  match fastCandidate responseText.data with
  | none => none
  | some js => jsonLoadsL (fastRepair js)

/-! ## Dates

`datetime.date` values, their proleptic-Gregorian ordinal (CPython
`date.toordinal`, with `0001-01-01` having ordinal 1), comparison, and the
`strptime('%Y-%m-%d')` format used throughout the repository. -/

structure Date where
  year : Nat
  month : Nat
  day : Nat
  deriving DecidableEq

/-- Gregorian leap years. -/
def isLeap (y : Nat) : Bool :=
  (y % 4 == 0 && y % 100 != 0) || y % 400 == 0

/-- Length of a month (`0` for out-of-range month numbers, which valid
dates exclude). -/
def daysInMonth (y m : Nat) : Nat :=
  match m with
  | 1 => 31 | 2 => if isLeap y then 29 else 28 | 3 => 31 | 4 => 30
  | 5 => 31 | 6 => 30 | 7 => 31 | 8 => 31 | 9 => 30 | 10 => 31
  | 11 => 30 | 12 => 31 | _ => 0

/-- Days in the months of year `y` strictly before month `m`. -/
def daysBeforeMonth (y : Nat) : Nat → Nat
  | 0 => 0
  | m + 1 => daysBeforeMonth y m + daysInMonth y m

/-- Length of a year. -/
def daysInYear (y : Nat) : Nat :=
  if isLeap y then 366 else 365

/-- Days in all years strictly before year `y` (CPython
`_days_before_year`). -/
def daysBeforeYear (y : Nat) : Nat :=
  365 * (y - 1) + (y - 1) / 4 - (y - 1) / 100 + (y - 1) / 400

/-- `date.toordinal`. -/
def toOrdinal (d : Date) : Nat :=
  daysBeforeYear d.year + daysBeforeMonth d.year d.month + d.day

/-- The constraints `datetime.date` enforces on construction. -/
def isValidDate (d : Date) : Prop :=
  1 ≤ d.year ∧ d.year ≤ 9999 ∧ 1 ≤ d.month ∧ d.month ≤ 12 ∧
    1 ≤ d.day ∧ d.day ≤ daysInMonth d.year d.month

instance (d : Date) : Decidable (isValidDate d) := by
  unfold isValidDate; infer_instance

/-- CPython compares dates componentwise. -/
def dateLt (a b : Date) : Prop :=
  a.year < b.year ∨ (a.year = b.year ∧
    (a.month < b.month ∨ (a.month = b.month ∧ a.day < b.day)))

instance (a b : Date) : Decidable (dateLt a b) := by
  unfold dateLt; infer_instance

/-- `date.weekday` on ordinals: Monday is `0` and ordinal 1 (0001-01-01) is
a Monday. -/
def weekdayOfOrdinal (n : Nat) : Nat :=
  (n + 6) % 7

/-- `date.weekday`. -/
def pyWeekday (d : Date) : Nat :=
  weekdayOfOrdinal (toOrdinal d)

/-- Value of a decimal digit character. -/
def parseDigit (c : Char) : Option Nat :=
  if c.isDigit then some (c.toNat - 48) else none

/-- One- or two-digit number at the head of the input (the greedy behaviour
of strptime's `%m`/`%d` patterns; value range is checked by the caller). -/
def takeNum2 : List Char → Option (Nat × List Char)
  | [] => none
  | [c1] => (parseDigit c1).map (fun v => (v, ([] : List Char)))
  | c1 :: c2 :: rest =>
    match parseDigit c1, parseDigit c2 with
    | some v1, some v2 => some (v1 * 10 + v2, rest)
    | some v1, none => some (v1, c2 :: rest)
    | none, _ => none

/-- `datetime.strptime(s, '%Y-%m-%d')`: exactly four year digits, one or two
month and day digits (`%d` also accepts a space before a single nonzero
digit), the whole string consumed, and the `datetime.date` range checks. -/
def parseYMD (s : String) : Option Date :=
  match s.data with
  | a :: b :: c :: d :: '-' :: rest =>
    match parseDigit a, parseDigit b, parseDigit c, parseDigit d with
    | some x1, some x2, some x3, some x4 =>
      let y := ((x1 * 10 + x2) * 10 + x3) * 10 + x4
      match takeNum2 rest with
      | some (m, '-' :: rest2) =>
        let dayPart : Option (Nat × List Char) :=
          match rest2 with
          | ' ' :: c1 :: rest3 =>
            match parseDigit c1 with
            | some v => if 1 ≤ v then some (v, rest3) else none
            | none => none
          | _ => takeNum2 rest2
        match dayPart with
        | some (dy, []) =>
          let cand : Date := ⟨y, m, dy⟩
          if isValidDate cand then some cand else none
        | _ => none
      | _ => none
    | _, _, _, _ => none
  | _ => none

/-- `strptime` applied to a JSON value: a non-string raises `TypeError`,
which every caller below catches together with `ValueError`. -/
def pyStrptimeDate (v : Json) : Option Date :=
  match v with
  | .str s => parseYMD s
  | _ => none

/-! ## The two date correctors (claim C1) -/

/-- `planner_service.generate_structured_plan` lines 247-266: a past or
unparseable start date becomes `today + timedelta(days=7 - today.weekday())`
(the Monday of the following week); the result is kept as a `datetime` at
midnight, here represented by its ordinal. -/
def correctStartOrdinalPS (today : Date) (v : Json) : Nat :=
  match pyStrptimeDate v with
  | some d =>
    if dateLt d today then toOrdinal today + (7 - pyWeekday today)
    else toOrdinal d
  | none => toOrdinal today + (7 - pyWeekday today)

/-- `fast._parse_and_store_plan_from_ai_response` lines 337-371: a past
start date moves to the same day of the next month, or to that month's
first day when the day does not exist there; an unparseable one moves to
the first of the next month.  Returns the date and the
`corrected_to_future_date` flag. -/
def fastCorrectNext (today : Date) : Nat × Nat :=
  if today.month + 1 > 12 then (today.year + 1, 1) else (today.year, today.month + 1)

def fastCorrectStartDate (today : Date) (v : Json) : Date × Bool :=
  match pyStrptimeDate v with
  | some d =>
    if dateLt d today then
      if 1 ≤ d.day ∧ d.day ≤ daysInMonth (fastCorrectNext today).1 (fastCorrectNext today).2 then
        (⟨(fastCorrectNext today).1, (fastCorrectNext today).2, d.day⟩, true)
      else (⟨(fastCorrectNext today).1, (fastCorrectNext today).2, 1⟩, true)
    else (d, false)
  | none => (⟨(fastCorrectNext today).1, (fastCorrectNext today).2, 1⟩, true)

/-! ## Python value semantics on JSON data -/

/-- Rational multiplication in a kernel-reducible form (core `Rat.mul` is
`@[irreducible]`); `qmul_eq_mul` below identifies it with `*`. -/
def qmul (a b : ℚ) : ℚ :=
  mkRat (a.num * b.num) (a.den * b.den)

/-- Rational addition in a kernel-reducible form (core `Rat.add` is
`@[irreducible]`); `qadd_eq_add` below identifies it with `+`. -/
def qadd (a b : ℚ) : ℚ :=
  mkRat (a.num * b.den + b.num * a.den) (a.den * b.den)

/-- Python truthiness of the values `json.loads` can produce. -/
def pyTruthy : Json → Bool
  | .null => false
  | .bool b => b
  | .num q => decide (q ≠ 0)
  | .str s => decide (s ≠ "")
  | .arr xs => ¬ xs.isEmpty
  | .obj kvs => ¬ kvs.isEmpty

/-- Whether a value is a dict. -/
def Json.isObjB : Json → Bool
  | .obj _ => true
  | _ => false

/-- Whether a value is a list. -/
def Json.isArrB : Json → Bool
  | .arr _ => true
  | _ => false

/-- `isinstance(x, (int, float))`: JSON numbers and booleans (Python bools
are ints). -/
def jsonIsNumber : Json → Bool
  | .num _ => true
  | .bool _ => true
  | _ => false

/-- Numeric value of a number-like JSON value. -/
def jsonToQ : Json → ℚ
  | .num q => q
  | .bool b => if b then 1 else 0
  | _ => 0

/-- Key lookup in a parsed object (keys are unique after `objInsert`). -/
def objLookup (kvs : List (String × Json)) (key : String) : Option Json :=
  match kvs with
  | [] => none
  | (k, v) :: rest => if k = key then some v else objLookup rest key

/-- `d.get(key, default)` on a known dict: the stored value (even `None`)
when the key is present, the default otherwise. -/
def dictGet (kvs : List (String × Json)) (key : String) (default : Json) : Json :=
  (objLookup kvs key).getD default

/-- `key in d`. -/
def dictHasKey (kvs : List (String × Json)) (key : String) : Bool :=
  (objLookup kvs key).isSome

/-- `v.get(key, default)` on an arbitrary value: `AttributeError` when `v`
is not a dict. -/
def pyGet (v : Json) (key : String) (default : Json) : Except PyErr Json :=
  match v with
  | .obj kvs => .ok (dictGet kvs key default)
  | _ => .error .attributeError

/-- `int(s)` for strings: optional surrounding whitespace, optional sign,
one or more digits. -/
def parseIntStr (s : String) : Option Int :=
  let cs := skipPyWs s.data
  let (sgn, cs1) : Int × List Char :=
    match cs with
    | '-' :: rest => (-1, rest)
    | '+' :: rest => (1, rest)
    | rest => (1, rest)
  match takeDigits cs1 with
  | ([], _) => none
  | (ds, rest) => if skipPyWs rest = [] then some (sgn * digitsVal ds) else none

/-- `float(s)` for strings: optional surrounding whitespace, optional sign,
digits with an optional point on either side, optional exponent.  (The
`inf`/`nan`/underscore forms never appear in any statement below.) -/
def parseFloatStr (s : String) : Option ℚ :=
  let cs := skipPyWs s.data
  let (sgn, cs1) : Int × List Char :=
    match cs with
    | '-' :: rest => (-1, rest)
    | '+' :: rest => (1, rest)
    | rest => (1, rest)
  let (intDigits, cs2) := takeDigits cs1
  let (fracDigits, cs3) : List Char × List Char :=
    match cs2 with
    | '.' :: r => takeDigits r
    | _ => ([], cs2)
  if intDigits = [] ∧ fracDigits = [] then none
  else
    let (expVal, cs4) : Option Int × List Char :=
      match cs3 with
      | e :: r =>
        if e = 'e' ∨ e = 'E' then
          let (esgn, r1) : Int × List Char :=
            match r with
            | '+' :: r2 => (1, r2)
            | '-' :: r2 => (-1, r2)
            | r2 => (1, r2)
          match takeDigits r1 with
          | ([], _) => (none, cs3)
          | (ds, r2) => (some (esgn * digitsVal ds), r2)
        else (none, cs3)
      | [] => (none, cs3)
    if skipPyWs cs4 = [] then
      let mant : Int := sgn * (digitsVal intDigits * 10 ^ fracDigits.length + digitsVal fracDigits)
      let texp : Int := (expVal.getD 0) - fracDigits.length
      some (if 0 ≤ texp then mkRat (mant * 10 ^ texp.toNat) 1 else mkRat mant (10 ^ (-texp).toNat))
    else none

/-- `float(x)`: numbers and bools convert, numeric strings parse,
everything else raises (`TypeError` for None/list/dict, `ValueError` for a
non-numeric string). -/
def pyFloat (v : Json) : Except PyErr ℚ :=
  match v with
  | .num q => .ok q
  | .bool b => .ok (if b then 1 else 0)
  | .str s =>
    match parseFloatStr s with
    | some q => .ok q
    | none => .error .valueError
  | _ => .error .typeError

/-- `int(x)`: floats truncate toward zero, integer strings parse,
everything else raises. -/
def pyInt (v : Json) : Except PyErr Int :=
  match v with
  | .num q => .ok (q.num.tdiv (q.den : Int))
  | .bool b => .ok (if b then 1 else 0)
  | .str s =>
    match parseIntStr s with
    | some n => .ok n
    | none => .error .valueError
  | _ => .error .typeError

/-- `str(x)` as used in f-strings.  Strings, ints, bools and `None` render
exactly as CPython does; non-integer numbers and containers get a
placeholder rendering (no theorem below inspects those cases, and the JSON
int/float distinction is not tracked by `Json.num`). -/
def pyStr : Json → String
  | .null => "None"
  | .bool b => if b then "True" else "False"
  | .str s => s
  | .num q => if q.den = 1 then toString q.num else toString q.num ++ "/" ++ toString q.den
  | .arr _ => "[...]"
  | .obj _ => "\x7b...\x7d"

/-- `s.strip()` (ASCII whitespace). -/
def pyStrip (s : String) : String :=
  String.mk ((skipPyWs (skipPyWs s.data).reverse).reverse)

/-- `s[:n]`. -/
def strTake (n : Nat) (s : String) : String :=
  String.mk (s.data.take n)

/-- Iterating a JSON value with `for x in v`: lists yield their items,
dicts their keys, strings their characters, anything else raises
`TypeError`. -/
def pyIterEntries : Json → Except PyErr (List Json)
  | .arr xs => .ok xs
  | .obj kvs => .ok (kvs.map (fun kv => .str kv.1))
  | .str s => .ok (s.data.map (fun c => .str (String.mk [c])))
  | _ => .error .typeError

/-- Largest valid CPython date ordinal (`date.max.toordinal()`,
9999-12-31). -/
def maxOrdinal : Nat := 3652059

/-- Proleptic-Gregorian date from an ordinal (`date.fromordinal`, the
standard civil-from-days computation); used only to render dates into
display strings. -/
def fromOrdinal (n : Nat) : Date :=
  let z := n + 305
  let era := z / 146097
  let doe := z % 146097
  let yoe := (doe - doe / 1460 + doe / 36524 - doe / 146096) / 365
  let doy := doe - (365 * yoe + yoe / 4 - yoe / 100)
  let mp := (5 * doy + 2) / 153
  let d := doy - (153 * mp + 2) / 5 + 1
  let m := if mp < 10 then mp + 3 else mp - 9
  ⟨yoe + era * 400 + (if m ≤ 2 then 1 else 0), m, d⟩

/-- Zero-padded two-digit rendering. -/
def pad2 (n : Nat) : String :=
  if n < 10 then "0" ++ toString n else toString n

/-- Zero-padded four-digit rendering. -/
def pad4 (n : Nat) : String :=
  if n < 10 then "000" ++ toString n
  else if n < 100 then "00" ++ toString n
  else if n < 1000 then "0" ++ toString n
  else toString n

/-- `date.strftime('%Y-%m-%d')`. -/
def formatDate (d : Date) : String :=
  pad4 d.year ++ "-" ++ pad2 d.month ++ "-" ++ pad2 d.day

/-- Render an ordinal as `YYYY-MM-DD`. -/
def formatOrdinal (n : Nat) : String :=
  formatDate (fromOrdinal n)

/-! ## Preferred-time parsing (claim C5)

`planner_service._parse_preferred_time_to_datetime_time` (identical in
main_cli.py apart from a log line) uses
`(\d{1,2})(?:[:.](\d{1,2}))?\s*(am|pm)?` with `re.IGNORECASE` and reverts
to `09:00` when the adjusted time is out of range;
`fast.create_calendar_events` inlines `(\d{1,2})(:\d{2})?\s*(am|pm)?` with
no range check. -/

/-- Lower-case a character list (`str.lower` on the ASCII inputs used
here). -/
def toLowerL (cs : List Char) : List Char :=
  cs.map Char.toLower

/-- Substring containment (Python `in`). -/
def containsSub (pat : List Char) : List Char → Bool
  | [] => (stripLit pat ([] : List Char)).isSome
  | c :: cs => (stripLit pat (c :: cs)).isSome || containsSub pat cs

/-- A time-pattern match result: the hour digits' value, the optional
minute digits' value, and the optional meridiem (`some true` = pm,
`some false` = am). -/
def timeMatchAtPS (cs : List Char) : Option (Nat × Option Nat × Option Bool) :=
  match cs with
  | [] => none
  | c1 :: rest =>
    if ¬ c1.isDigit then none
    else
      let p1 : Nat × List Char :=
        match rest with
        | c2 :: r2 => if c2.isDigit then (digitsVal [c1, c2], r2) else (digitsVal [c1], rest)
        | [] => (digitsVal [c1], [])
      let p2 : Option Nat × List Char :=
        match p1.2 with
        | sep :: d1 :: r3 =>
          if (sep = ':' ∨ sep = '.') ∧ d1.isDigit then
            match r3 with
            | d2 :: r4 =>
              if d2.isDigit then (some (digitsVal [d1, d2]), r4) else (some (digitsVal [d1]), r3)
            | [] => (some (digitsVal [d1]), [])
          else (none, p1.2)
        | _ => (none, p1.2)
      let ampm : Option Bool :=
        match skipPyWs p2.2 with
        | a :: b :: _ =>
          if a.toLower = 'p' ∧ b.toLower = 'm' then some true
          else if a.toLower = 'a' ∧ b.toLower = 'm' then some false
          else none
        | _ => none
      some (p1.1, p2.1, ampm)

/-- fast.py's variant: minutes only as `:` plus exactly two digits. -/
def timeMatchAtFast (cs : List Char) : Option (Nat × Option Nat × Option Bool) :=
  match cs with
  | [] => none
  | c1 :: rest =>
    if ¬ c1.isDigit then none
    else
      let p1 : Nat × List Char :=
        match rest with
        | c2 :: r2 => if c2.isDigit then (digitsVal [c1, c2], r2) else (digitsVal [c1], rest)
        | [] => (digitsVal [c1], [])
      let p2 : Option Nat × List Char :=
        match p1.2 with
        | ':' :: d1 :: d2 :: r4 =>
          if d1.isDigit ∧ d2.isDigit then (some (digitsVal [d1, d2]), r4) else (none, p1.2)
        | _ => (none, p1.2)
      let ampm : Option Bool :=
        match skipPyWs p2.2 with
        | a :: b :: _ =>
          if a.toLower = 'p' ∧ b.toLower = 'm' then some true
          else if a.toLower = 'a' ∧ b.toLower = 'm' then some false
          else none
        | _ => none
      some (p1.1, p2.1, ampm)

/-- `re.search` for the time patterns: leftmost start position at which the
pattern matches (it matches exactly where a digit starts, everything after
the hour being optional). -/
def timeSearchWith (f : List Char → Option (Nat × Option Nat × Option Bool)) :
    List Char → Option (Nat × Option Nat × Option Bool)
  | [] => none
  | c :: cs =>
    match f (c :: cs) with
    | some r => some r
    | none => timeSearchWith f cs

/-- The AM/PM adjustment of planner_service (and main_cli):
`pm` adds 12 for hours 1-11, `12 am` becomes 0, all else is kept. -/
def psAdjustTime (hr : Nat) (minsOpt : Option Nat) (ampm : Option Bool) : Nat × Nat :=
  (if ampm = some true ∧ 1 ≤ hr ∧ hr < 12 then hr + 12
   else if ampm = some false ∧ hr = 12 then 0
   else hr,
   minsOpt.getD 0)

/-- The AM/PM adjustment of fast.py: `pm` adds 12 for any hour below 12
(including 0), `12 am` becomes 0, all else is kept (its redundant
24-hour branch collapses to the same value). -/
def fastAdjustTime (hr : Nat) (minsOpt : Option Nat) (ampm : Option Bool) : Nat × Nat :=
  (if ampm = some true ∧ hr < 12 then hr + 12
   else if ampm = some false ∧ hr = 12 then 0
   else hr,
   minsOpt.getD 0)

/-- The shared period-keyword fallback (`morning` 9, `afternoon` 14,
`evening`/`night` 19, else the 09:00 default). -/
def keywordHours (s : String) : Nat × Nat :=
  if containsSub ("morning".data) (toLowerL s.data) then (9, 0)
  else if containsSub ("afternoon".data) (toLowerL s.data) then (14, 0)
  else if containsSub ("evening".data) (toLowerL s.data)
      || containsSub ("night".data) (toLowerL s.data) then (19, 0)
  else (9, 0)

/-- Whether any of the four period keywords occurs in the lowered string. -/
def hasPeriodKeyword (s : String) : Bool :=
  containsSub ("morning".data) (toLowerL s.data)
    || containsSub ("afternoon".data) (toLowerL s.data)
    || containsSub ("evening".data) (toLowerL s.data)
    || containsSub ("night".data) (toLowerL s.data)

/-- `planner_service._parse_preferred_time_to_datetime_time` (identical in
main_cli.py): `None` and the empty string are falsy and yield the default;
an out-of-range adjusted time reverts to `(9, 0)`. -/
def parsePreferredTimePS (v : Option String) : Nat × Nat :=
  match v with
  | none => (9, 0)
  | some s =>
    if s = "" then (9, 0)
    else
      match timeSearchWith timeMatchAtPS s.data with
      | some (hr, minsOpt, ampm) =>
        if (psAdjustTime hr minsOpt ampm).1 ≤ 23 ∧ (psAdjustTime hr minsOpt ampm).2 ≤ 59 then
          psAdjustTime hr minsOpt ampm
        else (9, 0)
      | none => keywordHours s

/-- Whether the planner_service parser recovers either a valid clock time
or a period keyword. -/
def psTimeRecovers (v : Option String) : Bool :=
  match v with
  | none => false
  | some s =>
    if s = "" then false
    else
      match timeSearchWith timeMatchAtPS s.data with
      | some (hr, minsOpt, ampm) =>
        decide ((psAdjustTime hr minsOpt ampm).1 ≤ 23 ∧ (psAdjustTime hr minsOpt ampm).2 ≤ 59)
      | none => hasPeriodKeyword s

/-- The inline hour/minute computation of `fast.create_calendar_events`
(lines 202-227): no range validation at all. -/
def fastParsePreferredTime (s : String) : Nat × Nat :=
  match timeSearchWith timeMatchAtFast s.data with
  | some (hr, minsOpt, ampm) => fastAdjustTime hr minsOpt ampm
  | none => keywordHours s

/-! ## `generate_structured_plan` (claims C3, C6, C8)

The prompt assembly and the network call are outside the model: the
embedding takes the model call's outcome (`Except` of an exception message
or the response text) and the optional `prompt_feedback` block reason as
parameters and covers everything from `response.text.strip()` onward. -/

/-- `_parse_preferred_time_to_datetime_time` applied to a JSON value:
non-string truthy values raise `TypeError` inside the guarded region, which
falls back to the default exactly like the falsy ones. -/
def parsePreferredTimeJson (v : Json) : Nat × Nat :=
  match v with
  | .str s => parsePreferredTimePS (some s)
  | _ => (9, 0)

/-- A structured task as appended to `structured_api_tasks`.  `startTime`
and `endTime` are kept as the underlying instants — rational seconds, the
task's date ordinal times 86400 plus the time of day — rather than their
`isoformat()` renderings. -/
structure StructuredTask where
  summary : String
  description : Json
  startTime : ℚ
  endTime : ℚ

/-- Seconds after midnight of a parsed preferred time. -/
def timeOfDaySecs (hm : Nat × Nat) : ℚ :=
  mkRat (hm.1 * 3600 + hm.2 * 60) 1

/-- One iteration of `generate_structured_plan`'s structuring loop (lines
281-302) for the `i`-th entry.  It runs under no try/except: `.get` on a
non-dict entry raises `AttributeError`, `float()` of a non-numeric value
raises, and a date outside `datetime`'s range raises `OverflowError`.  The
entry's own `date` value is never read: the task date is the corrected
start ordinal plus `i`. -/
def structureOneTask (startOrd : Nat) (pref : Nat × Nat) (dailyHours : ℚ) (i : Nat)
    (e : Json) : Except PyErr (StructuredTask × List String) := do
  let dayNum ← pyGet e "dayNumber" (.num (mkRat (i + 1) 1))
  if ¬ (startOrd + i ≤ maxOrdinal) then .error .overflowError
  else do
    let dateStr := formatOrdinal (startOrd + i)
    let objective ← pyGet e "objective" (.str "No objective specified.")
    let projects ← pyGet e "projects_exercises" (.str "")
    let hoursJ ← pyGet e "estimated_time_hours" (.num dailyHours)
    let taskHours ← pyFloat hoursJ
    let taskStart : ℚ := qadd (qmul (mkRat (startOrd + i) 1) 86400) (timeOfDaySecs pref)
    let taskEnd : ℚ := qadd taskStart (qmul taskHours 3600)
    if ¬ (86400 ≤ taskEnd ∧ taskEnd < qmul (mkRat (maxOrdinal + 1) 1) 86400) then
      .error .overflowError
    else
      .ok ({ summary := "Day " ++ pyStr dayNum ++ ": " ++ pyStr objective
             description := projects
             startTime := taskStart
             endTime := taskEnd },
           ("Day " ++ pyStr dayNum ++ " (" ++ dateStr ++ "): " ++ pyStr objective)
             :: (if pyTruthy projects then ["  └ Exercises: " ++ pyStr projects] else []))

/-- The structuring loop: any entry's exception escapes; tasks and
human-readable lines accumulate in order. -/
def structureTasks (startOrd : Nat) (pref : Nat × Nat) (dailyHours : ℚ) :
    List Json → Nat → Except PyErr (List StructuredTask × List String)
  | [], _ => .ok ([], [])
  | e :: rest, i => do
    let p1 ← structureOneTask startOrd pref dailyHours i e
    let p ← structureTasks startOrd pref dailyHours rest (i + 1)
    .ok (p1.1 :: p.1, p1.2 ++ p.2)

/-- The two failure messages of the parse-failure branch (lines 227-236):
a content-policy message when `prompt_feedback` carries a block reason,
otherwise the invalid-format message with the first 200 response
characters. -/
def planFailureMessage (blockReason : Option (String × String)) (aiText : String) :
    Option (List StructuredTask) × String :=
  match blockReason with
  | some (r, m) =>
    (none, "Plan generation failed due to content policy: " ++ r ++ ". Please rephrase. (" ++ m ++ ")")
  | none =>
    (none, "AI did not return a valid plan in the expected JSON format. Response: " ++ strTake 200 aiText)

/-- `"learningPlan" in parsed_json_plan` — extraction only ever produces
objects, so only the dict case is inhabited. -/
def jsonHasKey (v : Json) (key : String) : Bool :=
  match v with
  | .obj kvs => dictHasKey kvs key
  | _ => false

/-- Object entries of a parsed plan (only the dict case is inhabited for
extraction results). -/
def jsonObjKvs : Json → List (String × Json)
  | .obj kvs => kvs
  | _ => []

/-- The Python value of an optional string argument (`None` ↦ JSON null). -/
def optStrJson : Option String → Json
  | some s => .str s
  | none => .null

/-- The validated-plan path of `generate_structured_plan` (lines 239-309):
top-level fields with the caller's values as defaults (`int()` and
`float()` can raise here), date correction, preferred-time parsing, the
structuring loop, and the final empty-plan check. -/
def gspMainPath (today : Date) (kvs : List (String × Json)) (goal : String)
    (durationDays : Int) (startDateStr : String) (preferredTimeStr : Option String)
    (dailyHours : Option ℚ) : Except PyErr (Option (List StructuredTask) × String) := do
  let _planDuration ← pyInt (dictGet kvs "duration_days" (.num (mkRat durationDays 1)))
  let planDailyHours ← pyFloat (dictGet kvs "daily_hours" (.num (dailyHours.getD 2)))
  let entries ← pyIterEntries (dictGet kvs "learningPlan" (.arr []))
  let p ← structureTasks
    (correctStartOrdinalPS today (dictGet kvs "start_date" (.str startDateStr)))
    (parsePreferredTimeJson (dictGet kvs "preferred_time" (optStrJson preferredTimeStr)))
    planDailyHours entries 0
  if p.1.isEmpty then
    .ok (none,
      "Plan generated by AI but failed to structure into tasks (e.g. 'learningPlan' array was empty or items malformed).")
  else
    .ok (some p.1, String.intercalate "\n"
      (("Learning Plan for: " ++ pyStr (dictGet kvs "skill" (.str goal)))
        :: ("Starting: " ++ formatOrdinal
              (correctStartOrdinalPS today (dictGet kvs "start_date" (.str startDateStr)))
              ++ "\n") :: p.2))

/-- `planner_service.generate_structured_plan` from the model call onward.
`aiResult` is the outcome of `self.model.generate_content`, `blockReason`
the optional `prompt_feedback` block reason/message pair.  Returns
`(structured_tasks?, human readable or error)`, or the exception escaping
the function. -/
def generateStructuredPlan (today : Date) (aiResult : Except String String)
    (blockReason : Option (String × String)) (goal : String) (durationDays : Int)
    (startDateStr : String) (preferredTimeStr : Option String) (dailyHours : Option ℚ) :
    Except PyErr (Option (List StructuredTask) × String) :=
  match aiResult with
  | .error e => .ok (none, "Error communicating with AI: " ++ e)
  | .ok rawText =>
    match extractValidJsonPS (pyStrip rawText) with
    | none => .ok (planFailureMessage blockReason (pyStrip rawText))
    | some plan =>
      if ¬ (pyTruthy plan && jsonHasKey plan "learningPlan") then
        .ok (planFailureMessage blockReason (pyStrip rawText))
      else
        gspMainPath today (jsonObjKvs plan) goal durationDays startDateStr
          preferredTimeStr dailyHours

/-- `handle_chat_message` from the model call onward: the response text is
stripped and returned, and any exception becomes an apology string. -/
def handleChatMessage (aiResult : Except String String) : String :=
  match aiResult with
  | .ok text => pyStrip text
  | .error e => "Sorry, I encountered an error trying to process your message: " ++ e

/-! ## Calendar-event creation (claims C3, C4)

Calendar inserts are outbound API calls; each embedding takes an oracle
giving the outcome of the k-th insert attempt.  In fast.py and main_cli.py
every loop iteration runs in a `try/except Exception` whose handler prints
`day_num` — unbound on a first-iteration failure, so the embeddings carry a
"bound" flag and raise `NameError` exactly there. -/

/-- Reducible rational subtraction (core `Rat.sub` is `@[irreducible]`). -/
def qsub (a b : ℚ) : ℚ :=
  mkRat (a.num * b.den - b.num * a.den) (a.den * b.den)

/-- Floor of a rational (`timedelta(days=x)` keeps `floor(x)` whole days;
`Int` division is floor division here). -/
def qfloor (q : ℚ) : Int :=
  q.num / (q.den : Int)

/-- Items of a JSON list value. -/
def jsonArrItems : Json → List Json
  | .arr xs => xs
  | _ => []

/-- Outcome of one day entry's processing inside the per-iteration
try/except: an exception reaching the handler, a plain `continue`, or an
insert attempt carrying the event's instants. -/
inductive EntryOutcome where
  | raised (e : PyErr)
  | skipped
  | inserted (summary : String) (startQ endQ : ℚ)

/-- The body of `fast.create_calendar_events`'s day loop (lines 230-278)
for a dict entry: estimated hours fall back to the plan's daily hours
unless numeric, an unparseable date string falls back through `dayNumber`,
an undeterminable date is skipped, and the unvalidated preferred time can
make `datetime.time` raise.  (`datetime` range overflow is modelled on the
event instants; `timedelta`'s own ±999999999-day bound is beyond every
statement below.) -/
def fastEntryProcess (skill : String) (startOrd : Nat) (daily : ℚ) (hm : Nat × Nat)
    (kvs : List (String × Json)) : EntryOutcome :=
  let dayNum := dictGet kvs "dayNumber" .null
  let est := dictGet kvs "estimated_time_hours" .null
  let duration : ℚ := if jsonIsNumber est then jsonToQ est else daily
  let dateJ := dictGet kvs "date" .null
  let dateStep : Except PyErr (Option Nat) :=
    if pyTruthy dateJ then
      match dateJ with
      | .str s => .ok ((parseYMD s).map toOrdinal)
      | _ => .error .typeError
    else .ok none
  match dateStep with
  | .error e => .raised e
  | .ok d0 =>
    let dateStep2 : Except PyErr (Option Nat) :=
      match d0 with
      | some o => .ok (some o)
      | none =>
        match dayNum with
        | .null => .ok none
        | .num q =>
          let cand : Int := (startOrd : Int) + qfloor (qsub q 1)
          if 1 ≤ cand ∧ cand ≤ (maxOrdinal : Int) then .ok (some cand.toNat)
          else .error .overflowError
        | .bool b =>
          let cand : Int := (startOrd : Int) + (if b then 1 else 0) - 1
          if 1 ≤ cand ∧ cand ≤ (maxOrdinal : Int) then .ok (some cand.toNat)
          else .error .overflowError
        | _ => .error .typeError
    match dateStep2 with
    | .error e => .raised e
    | .ok none => .skipped
    | .ok (some o) =>
      if ¬ (hm.1 ≤ 23 ∧ hm.2 ≤ 59) then .raised .valueError
      else
        let startQ := qadd (qmul (mkRat o 1) 86400) (timeOfDaySecs hm)
        let endQ := qadd startQ (qmul duration 3600)
        if ¬ (86400 ≤ endQ ∧ endQ < qmul (mkRat (maxOrdinal + 1) 1) 86400) then
          .raised .overflowError
        else .inserted (skill ++ " Learning - Day " ++ pyStr dayNum) startQ endQ

/-- The day loop of `fast.create_calendar_events`: per-iteration exceptions
are caught and logged (the handler itself raises `NameError` when `day_num`
was never bound), skipped entries consume no insert attempt, and the count
of successful inserts is returned. -/
def fastEventLoop (skill : String) (startOrd : Nat) (daily : ℚ) (hm : Nat × Nat)
    (oracle : Nat → Except Unit Unit) :
    List Json → Nat → Bool → Except PyErr Nat
  | [], _, _ => .ok 0
  | e :: rest, k, bound =>
    match e with
    | .obj kvs =>
      match fastEntryProcess skill startOrd daily hm kvs with
      | .skipped => fastEventLoop skill startOrd daily hm oracle rest k true
      | .raised _ => fastEventLoop skill startOrd daily hm oracle rest k true
      | .inserted _ _ _ =>
        match oracle k with
        | .ok _ => (fastEventLoop skill startOrd daily hm oracle rest (k + 1) true).map (· + 1)
        | .error _ => fastEventLoop skill startOrd daily hm oracle rest (k + 1) true
    | _ => if bound then fastEventLoop skill startOrd daily hm oracle rest k bound
           else .error .nameError

/-- `fast.create_calendar_events` (lines 190-285). -/
def createCalendarEventsFast (serviceUp : Bool) (skill : String)
    (planKvs : List (String × Json)) (startOrd : Nat) (daily : ℚ) (prefStr : String)
    (oracle : Nat → Except Unit Unit) : Except PyErr String :=
  if ¬ serviceUp then
    .ok "Calendar service not available. Please authenticate to Google Calendar first."
  else
    let lp := dictGet planKvs "learningPlan" .null
    if ¬ (pyTruthy lp && Json.isArrB lp) then .ok "Invalid plan for calendar integration."
    else
      let hm := fastParsePreferredTime prefStr
      match fastEventLoop skill startOrd daily hm oracle (jsonArrItems lp) 0 false with
      | .error e => .error e
      | .ok n =>
        .ok (if n > 0 then
              "Successfully integrated " ++ toString n ++ " learning events into Google Calendar."
            else
              "No events could be integrated into Google Calendar. Please check the plan details and calendar access.")

/-- The body of `main_cli._create_calendar_events_from_plan_details`'s day
loop (lines 188-224) for a dict entry: estimated hours must be numeric and
positive, `strptime` failures (including non-strings — this variant catches
`TypeError` too) fall back through `int(day_num)`, whose own failure is an
exception into the per-entry handler; the preferred time was validated by
the parser, so only date-range overflow can raise past that point. -/
def cliEntryProcess (skill : String) (startOrd : Nat) (daily : ℚ) (hm : Nat × Nat)
    (kvs : List (String × Json)) : EntryOutcome :=
  let dayNum := dictGet kvs "dayNumber" .null
  let objective := dictGet kvs "objective" (.str "Daily learning objectives")
  let est := dictGet kvs "estimated_time_hours" .null
  let duration : ℚ := if jsonIsNumber est ∧ 0 < jsonToQ est then jsonToQ est else daily
  let dateJ := dictGet kvs "date" .null
  let d0 : Option Nat :=
    match dateJ with
    | .str s => (parseYMD s).map toOrdinal
    | _ => none
  let dateStep : Except PyErr (Option Nat) :=
    match d0 with
    | some o => .ok (some o)
    | none =>
      match dayNum with
      | .null => .ok none
      | _ =>
        match pyInt dayNum with
        | .error e => .error e
        | .ok n =>
          let cand : Int := (startOrd : Int) + n - 1
          if 1 ≤ cand ∧ cand ≤ (maxOrdinal : Int) then .ok (some cand.toNat)
          else .error .overflowError
  match dateStep with
  | .error e => .raised e
  | .ok none => .skipped
  | .ok (some o) =>
    let startQ := qadd (qmul (mkRat o 1) 86400) (timeOfDaySecs hm)
    let endQ := qadd startQ (qmul duration 3600)
    if ¬ (86400 ≤ endQ ∧ endQ < qmul (mkRat (maxOrdinal + 1) 1) 86400) then
      .raised .overflowError
    else .inserted (skill ++ " - Day " ++ pyStr dayNum ++ ": " ++ pyStr objective) startQ endQ

/-- The day loop of `main_cli._create_calendar_events_from_plan_details`,
with the same catch-and-log structure as fast.py's. -/
def cliEventLoop (skill : String) (startOrd : Nat) (daily : ℚ) (hm : Nat × Nat)
    (oracle : Nat → Except Unit Unit) :
    List Json → Nat → Bool → Except PyErr Nat
  | [], _, _ => .ok 0
  | e :: rest, k, bound =>
    match e with
    | .obj kvs =>
      match cliEntryProcess skill startOrd daily hm kvs with
      | .skipped => cliEventLoop skill startOrd daily hm oracle rest k true
      | .raised _ => cliEventLoop skill startOrd daily hm oracle rest k true
      | .inserted _ _ _ =>
        match oracle k with
        | .ok _ => (cliEventLoop skill startOrd daily hm oracle rest (k + 1) true).map (· + 1)
        | .error _ => cliEventLoop skill startOrd daily hm oracle rest (k + 1) true
    | _ => if bound then cliEventLoop skill startOrd daily hm oracle rest k bound
           else .error .nameError

/-- `main_cli._create_calendar_events_from_plan_details` (lines 169-226):
the stored details are passed in unpacked (`skill`, the stored start
datetime's ordinal, daily hours, preferred time string). -/
def cliCreateCalendarEvents (serviceUp : Bool) (planData : Option Json)
    (detailsTruthy : Bool) (skill : String) (startOrdOpt : Option Nat) (daily : ℚ)
    (prefStr : String) (oracle : Nat → Except Unit Unit) : Except PyErr String :=
  if ¬ serviceUp then .ok "Calendar service not available."
  else
    match planData with
    | none => .ok "No plan data available to integrate."
    | some plan =>
      if ¬ (pyTruthy plan && detailsTruthy) then .ok "No plan data available to integrate."
      else
        match startOrdOpt with
        | none => .ok "Start date missing in plan details."
        | some startOrd => do
          let hm := parsePreferredTimePS (some prefStr)
          let lp ← pyGet plan "learningPlan" (.arr [])
          let entries ← pyIterEntries lp
          let n ← cliEventLoop skill startOrd daily hm oracle entries 0 false
          if n > 0 then
            .ok ("Successfully integrated " ++ toString n ++ " learning events.")
          else .ok "No events were integrated."

/-- `add_plan_to_calendar`'s task loop (planner_service lines 326-347): the
whole body runs in one try/except; a task without both times is skipped
before its insert, a failing insert is logged and skipped, and the handler
prints `summary` (unbound on a first-iteration non-dict task). -/
def addPlanLoop (skillName : String) (oracle : Nat → Except Unit String) :
    List Json → Nat → Bool → Except PyErr (List String × Nat)
  | [], _, _ => .ok ([], 0)
  | t :: rest, k, bound =>
    match t with
    | .obj kvs =>
      let startT := dictGet kvs "startTime" .null
      let endT := dictGet kvs "endTime" .null
      if ¬ (pyTruthy startT && pyTruthy endT) then
        addPlanLoop skillName oracle rest k true
      else
        match oracle k with
        | .ok link =>
          (addPlanLoop skillName oracle rest (k + 1) true).map (fun p => (link :: p.1, p.2 + 1))
        | .error _ => addPlanLoop skillName oracle rest (k + 1) true
    | _ => if bound then addPlanLoop skillName oracle rest k bound else .error .nameError

/-- `planner_service.add_plan_to_calendar` (lines 312-351): the credential
refresh is log-only, event links of successful inserts are collected, and
the returned message counts them (`None` links when the count is zero). -/
def addPlanToCalendar (serviceUp : Bool) (skillName : String) (tasks : List Json)
    (oracle : Nat → Except Unit String) : Except PyErr (String × Option (List String)) :=
  if ¬ serviceUp then
    .ok ("Calendar service not available. Please check server authentication.", none)
  else
    match addPlanLoop skillName oracle tasks 0 false with
    | .error e => .error e
    | .ok (links, n) =>
      if n > 0 then
        .ok ("Successfully added " ++ toString n ++ " tasks to Google Calendar.", some links)
      else .ok ("No events were added to Google Calendar. Check logs for details.", none)

/-! ## Specification-side recurrences (for claims C3 and C4)

Transparent recurrences the loop embeddings are proved equal to: they name
which tasks are attempted and how successes accumulate. -/

/-- The tasks `add_plan_to_calendar` attempts to insert: dicts with truthy
`startTime` and `endTime`. -/
def specAttempted (tasks : List Json) : List Json :=
  tasks.filter (fun t =>
    match t with
    | .obj kvs => pyTruthy (dictGet kvs "startTime" .null) && pyTruthy (dictGet kvs "endTime" .null)
    | _ => false)

/-- Links and count accumulated over the attempted tasks: attempt `k`
contributes its link exactly when the oracle succeeds, and every later task
is still attempted. -/
def specCollectInserts (oracle : Nat → Except Unit String) :
    List Json → Nat → List String × Nat
  | [], _ => ([], 0)
  | _ :: rest, k =>
    let p := specCollectInserts oracle rest (k + 1)
    match oracle k with
    | .ok link => (link :: p.1, p.2 + 1)
    | .error _ => p

/-- Count of created events over day entries for a per-entry processing
function: non-insert outcomes (malformed or dateless entries) consume no
attempt, failing inserts are skipped. -/
def specEventCount (oracle : Nat → Except Unit Unit)
    (process : List (String × Json) → EntryOutcome) :
    List Json → Nat → Nat
  | [], _ => 0
  | e :: rest, k =>
    match e with
    | .obj kvs =>
      match process kvs with
      | .inserted _ _ _ =>
        match oracle k with
        | .ok _ => specEventCount oracle process rest (k + 1) + 1
        | .error _ => specEventCount oracle process rest (k + 1)
      | _ => specEventCount oracle process rest k
    | _ => specEventCount oracle process rest k

/-! ## API startup and endpoints (claims C6, C7) -/

inductive StartupOutcome where
  | exited (code : Nat)
  | started
  deriving DecidableEq

/-- The `__main__` guard of main_cli.py (lines 370-382): missing
`credentials.json` exits with code 1 before the CLI starts; then a missing
API key also exits. -/
def cliMainPrecheck (credsExists apiKeySet : Bool) : StartupOutcome :=
  if ¬ credsExists then .exited 1
  else if ¬ apiKeySet then .exited 1
  else .started

inductive InitError where
  | fileNotFound
  | valueError
  | otherError
  deriving DecidableEq

/-- `planner_service._get_oauth_credentials`: raises `FileNotFoundError`
when `credentials.json` is absent, before any token handling; the
token/OAuth flow beyond that check is abstracted as `rest`. -/
def getOAuthCredentialsPS (credsExists : Bool) (rest : Except InitError Unit) :
    Except InitError Unit :=
  if ¬ credsExists then .error .fileNotFound else rest

/-- `LearningPlannerService.__init__`: a missing API key raises
`ValueError`, then the credential check runs. -/
def initLearningPlannerService (apiKeySet credsExists : Bool)
    (oauthRest : Except InitError Unit) : Except InitError Unit :=
  if ¬ apiKeySet then .error .valueError
  else getOAuthCredentialsPS credsExists oauthRest

/-- main_api.py module initialisation (lines 33-48): every init exception
is caught and leaves the instance as `None`. -/
def plannerServiceInstance (apiKeySet credsExists : Bool)
    (oauthRest : Except InitError Unit) : Option Unit :=
  match initLearningPlannerService apiKeySet credsExists oauthRest with
  | .ok u => some u
  | .error _ => none

/-- The detail string of `get_planner_service`'s 503 response. -/
def svcUnavailableDetail : String :=
  "Planner service is not available due to a startup configuration error. Please check server logs."

/-- Result of an HTTP endpoint: a value, an `HTTPException`, or an
exception FastAPI turns into a generic 500. -/
inductive ApiOutcome (α : Type) where
  | ok (value : α)
  | httpError (status : Nat) (detail : String)
  | unhandled (e : PyErr)

/-- `POST /chat-message`: depends on `get_planner_service` (503 when the
instance is `None`), then returns the chat handler's string. -/
def chatMessageEndpoint (inst : Option Unit) (aiResult : Except String String) :
    ApiOutcome String :=
  match inst with
  | none => .httpError 503 svcUnavailableDetail
  | some _ => .ok (handleChatMessage aiResult)

/-- `POST /generate-plan`: 503 without a service instance; a `(None, msg)`
service result becomes a 400 carrying `msg`; an exception escaping
`generate_structured_plan` is unhandled (FastAPI's generic 500). -/
def generatePlanEndpoint (inst : Option Unit) (today : Date)
    (aiResult : Except String String) (blockReason : Option (String × String))
    (goal : String) (durationDays : Int) (startDateStr : String)
    (preferredTimeStr : Option String) (dailyHours : Option ℚ) :
    ApiOutcome (List StructuredTask × String) :=
  match inst with
  | none => .httpError 503 svcUnavailableDetail
  | some _ =>
    match generateStructuredPlan today aiResult blockReason goal durationDays startDateStr
        preferredTimeStr dailyHours with
    | .error e => .unhandled e
    | .ok (none, msg) => .httpError 400 msg
    | .ok (some tasks, msg) => .ok (tasks, msg)

/-- `POST /integrate-plan`: 503 without a service instance; a message that
neither reports success nor contains "failed" is returned as-is, otherwise
a 500 is raised. -/
def integratePlanEndpoint (inst : Option Unit) (serviceUp : Bool) (skillName : String)
    (tasks : List Json) (oracle : Nat → Except Unit String) :
    ApiOutcome (String × Option (List String)) :=
  match inst with
  | none => .httpError 503 svcUnavailableDetail
  | some _ =>
    match addPlanToCalendar serviceUp skillName tasks oracle with
    | .error e => .unhandled e
    | .ok (msg, links) =>
      if ¬ containsSub ("Successfully".data) msg.data
          && containsSub ("failed".data) (toLowerL msg.data) then
        .httpError 500 msg
      else .ok (msg, links)

/-! ## Conversational state and the integrate command (claim C10) -/

/-- The stored-plan fields of `SkillLearningPlannerChat` /
`SkillLearningPlannerCLI`: `last_parsed_plan_data` (`None` or a dict) and
`last_parsed_plan_details` (a dict, `{}` initially and after clearing). -/
structure ChatState where
  lastParsedPlanData : Option Json
  lastParsedPlanDetails : List (String × Json)

/-- `self.last_parsed_plan_data and self.last_parsed_plan_details`:
both fields truthy. -/
def stateHasPlan (st : ChatState) : Bool :=
  (match st.lastParsedPlanData with
   | some d => pyTruthy d
   | none => false) && ¬ st.lastParsedPlanDetails.isEmpty

/-- `INTEGRATE_COMMAND_KEYWORDS` (identical in fast.py and main_cli.py). -/
def integrateCommandKeywords : List String :=
  ["integrate", "add to calendar", "sync calendar", "put on calendar", "schedule it"]

/-- `any(phrase in user_input.lower() for phrase in keywords)`. -/
def hasIntegrateKeyword (input : String) : Bool :=
  integrateCommandKeywords.any (fun kw => containsSub kw.data (toLowerL input.data))

/-- `fast._handle_integration_command` (lines 407-428): on a keyword match
with a stored plan, integration runs (its result message is the oracle
parameter) and both stored fields are cleared regardless of that result;
without a stored plan a refusal is printed.  Returns (handled, new state,
printed lines). -/
def handleIntegrationCommandFast (st : ChatState) (input : String)
    (integrationMessage : String) : Bool × ChatState × List String :=
  if hasIntegrateKeyword input then
    if stateHasPlan st then
      (true, ⟨none, []⟩,
        ["Attempting to integrate the last generated plan...", "\nAI: " ++ integrationMessage])
    else
      (true, st,
        ["\nAI: I don't have a recent learning plan to integrate. Please ask me to generate one first."])
  else (false, st, [])

/-- `main_cli._handle_cli_integration_command` (lines 304-315); the run
loop passes the already-lowered input. -/
def handleIntegrationCommandCli (st : ChatState) (inputLower : String)
    (resultMessage : String) : Bool × ChatState × List String :=
  if hasIntegrateKeyword inputLower then
    if stateHasPlan st then
      (true, ⟨none, []⟩,
        ["\nAI: Okay, attempting to add the last generated plan to your Google Calendar...",
         "AI: " ++ resultMessage])
    else
      (true, st, ["\nAI: I don't have a plan ready to integrate. Please ask me to generate one first."])
  else (false, st, [])

/-! ## Supporting lemmas -/

theorem qmul_eq_mul (a b : ℚ) : qmul a b = a * b := by
  rw [Rat.mul_def, Rat.normalize_eq_mkRat]
  rfl

theorem qadd_eq_add (a b : ℚ) : qadd a b = a + b := by
  rw [Rat.add_def']
  rfl

theorem daysBeforeMonth_succ (y m : Nat) :
    daysBeforeMonth y (m + 1) = daysBeforeMonth y m + daysInMonth y m := rfl

theorem dbm13 (y : Nat) : daysBeforeMonth y 13 = daysInYear y := by
  have h0 : daysBeforeMonth y 13 =
      0 + 0 + 31 + (if isLeap y then 29 else 28) + 31 + 30 + 31 + 30 + 31 + 31 + 30 + 31 +
        30 + 31 := rfl
  rw [h0]
  unfold daysInYear
  by_cases h : isLeap y = true <;> simp [h]

set_option maxHeartbeats 1000000 in
theorem dby_succ (y : Nat) (hy : 1 ≤ y) :
    daysBeforeYear (y + 1) = daysBeforeYear y + daysInYear y := by
  have hleap : isLeap y = true ↔ ((y % 4 = 0 ∧ y % 100 ≠ 0) ∨ y % 400 = 0) := by
    simp [isLeap]
  unfold daysBeforeYear daysInYear
  by_cases h : isLeap y = true
  · have h2 := hleap.mp h
    rw [if_pos h]
    omega
  · have h2 : ¬ ((y % 4 = 0 ∧ y % 100 ≠ 0) ∨ y % 400 = 0) := fun hc => h (hleap.mpr hc)
    rw [if_neg h]
    omega

/-- Moving to any day of the "next month" as computed by fast.py strictly
increases the CPython date ordinal. -/
theorem toOrdinal_lt_next_month (today : Date) (ht : isValidDate today) (dy : Nat)
    (h1 : 1 ≤ dy) :
    toOrdinal today < toOrdinal ⟨(fastCorrectNext today).1, (fastCorrectNext today).2, dy⟩ := by
  obtain ⟨hy1, _, hm1, hm12, _, hd2⟩ := ht
  unfold fastCorrectNext toOrdinal
  by_cases hm : today.month + 1 > 12
  · have hmeq : today.month = 12 := by omega
    rw [if_pos hm]
    simp only
    rw [dby_succ today.year hy1]
    have h13 : daysBeforeMonth today.year 12 + daysInMonth today.year 12 = daysInYear today.year := by
      rw [← daysBeforeMonth_succ]
      exact dbm13 today.year
    have hbm1 : daysBeforeMonth (today.year + 1) 1 = 0 := rfl
    rw [hmeq] at hd2
    rw [hmeq]
    omega
  · rw [if_neg hm]
    simp only
    rw [daysBeforeMonth_succ]
    omega

/-- C1: a model-supplied plan start date that parses as `YYYY-MM-DD` and is
strictly earlier than today is replaced by a date not earlier than today:
`planner_service.generate_structured_plan` pushes it to the Monday of the
following week (strictly later than today, a Monday, at most seven days
ahead), and `fast._parse_and_store_plan_from_ai_response` pushes it to the
same day of the following month, or that month's first day when the day
does not exist there (strictly later than today, with the corrected
flag set). -/
theorem c1_past_start_date_pushed_to_future (today d : Date) (s : String)
    (htoday : isValidDate today) (hparse : parseYMD s = some d) (hpast : dateLt d today) :
    (toOrdinal today < correctStartOrdinalPS today (.str s)
      ∧ weekdayOfOrdinal (correctStartOrdinalPS today (.str s)) = 0
      ∧ correctStartOrdinalPS today (.str s) ≤ toOrdinal today + 7)
    ∧ (toOrdinal today < toOrdinal (fastCorrectStartDate today (.str s)).1
      ∧ (fastCorrectStartDate today (.str s)).2 = true
      ∧ ((fastCorrectStartDate today (.str s)).1.day = d.day
          ∨ (fastCorrectStartDate today (.str s)).1.day = 1)) := by
  have hps : pyStrptimeDate (.str s) = some d := hparse
  constructor
  · have hc : correctStartOrdinalPS today (.str s) = toOrdinal today + (7 - pyWeekday today) := by
      unfold correctStartOrdinalPS
      rw [hps]
      simp only
      rw [if_pos hpast]
    rw [hc]
    unfold pyWeekday weekdayOfOrdinal
    omega
  · have hbase : fastCorrectStartDate today (.str s) =
        (if 1 ≤ d.day ∧ d.day ≤ daysInMonth (fastCorrectNext today).1 (fastCorrectNext today).2 then
          (⟨(fastCorrectNext today).1, (fastCorrectNext today).2, d.day⟩, true)
        else (⟨(fastCorrectNext today).1, (fastCorrectNext today).2, 1⟩, true)) := by
      unfold fastCorrectStartDate
      rw [hps]
      simp only
      rw [if_pos hpast]
    rw [hbase]
    by_cases hday : 1 ≤ d.day ∧ d.day ≤ daysInMonth (fastCorrectNext today).1 (fastCorrectNext today).2
    · rw [if_pos hday]
      exact ⟨toOrdinal_lt_next_month today htoday d.day hday.1, rfl, Or.inl rfl⟩
    · rw [if_neg hday]
      exact ⟨toOrdinal_lt_next_month today htoday 1 le_rfl, rfl, Or.inr rfl⟩

theorem specCollectInserts_length (oracle : Nat → Except Unit String)
    (ts : List Json) (k : Nat) :
    (specCollectInserts oracle ts k).1.length = (specCollectInserts oracle ts k).2 := by
  induction ts generalizing k with
  | nil => rfl
  | cons t rest ih =>
    have hstep : specCollectInserts oracle (t :: rest) k =
        (match oracle k with
        | .ok link => (link :: (specCollectInserts oracle rest (k + 1)).1,
            (specCollectInserts oracle rest (k + 1)).2 + 1)
        | .error _ => specCollectInserts oracle rest (k + 1)) := rfl
    rw [hstep]
    rcases ho : oracle k with e | link
    · exact ih (k + 1)
    · simp [ih (k + 1)]

/-- The task loop of `add_plan_to_calendar` equals the
`specCollectInserts` recurrence over the attempted tasks. -/
theorem addPlanLoop_spec (skillName : String) (oracle : Nat → Except Unit String)
    (tasks : List Json) (h : tasks.all Json.isObjB = true) (k : Nat) (b : Bool) :
    addPlanLoop skillName oracle tasks k b =
      .ok (specCollectInserts oracle (specAttempted tasks) k) := by
  induction tasks generalizing k b with
  | nil => rfl
  | cons t rest ih =>
    rw [List.all_cons, Bool.and_eq_true] at h
    obtain ⟨ht, hrest⟩ := h
    match t, ht with
    | .obj kvs, _ =>
      have hstep : addPlanLoop skillName oracle (Json.obj kvs :: rest) k b =
          (if ¬ (pyTruthy (dictGet kvs "startTime" .null)
              && pyTruthy (dictGet kvs "endTime" .null)) = true then
            addPlanLoop skillName oracle rest k true
          else match oracle k with
            | .ok link => (addPlanLoop skillName oracle rest (k + 1) true).map
                (fun p => (link :: p.1, p.2 + 1))
            | .error _ => addPlanLoop skillName oracle rest (k + 1) true) := rfl
      rw [hstep]
      by_cases hc : (pyTruthy (dictGet kvs "startTime" .null)
          && pyTruthy (dictGet kvs "endTime" .null)) = true
      · rw [if_neg (by simp [hc])]
        have hatt : specAttempted (Json.obj kvs :: rest) = Json.obj kvs :: specAttempted rest := by
          simp [specAttempted, List.filter_cons, hc]
        rw [hatt]
        have hspec : specCollectInserts oracle (Json.obj kvs :: specAttempted rest) k =
            (match oracle k with
            | .ok link => (link :: (specCollectInserts oracle (specAttempted rest) (k + 1)).1,
                (specCollectInserts oracle (specAttempted rest) (k + 1)).2 + 1)
            | .error _ => specCollectInserts oracle (specAttempted rest) (k + 1)) := rfl
        rw [hspec]
        rcases ho : oracle k with e | link
        · rw [ih hrest (k + 1) true]
        · rw [ih hrest (k + 1) true]
          rfl
      · rw [if_pos (by simp [hc])]
        have hatt : specAttempted (Json.obj kvs :: rest) = specAttempted rest := by
          simp [specAttempted, List.filter_cons, hc]
        rw [hatt]
        exact ih hrest k true

/-- The day loop of `fast.create_calendar_events` equals the
`specEventCount` recurrence when every entry is a dict. -/
theorem fastEventLoop_spec (skill : String) (startOrd : Nat) (daily : ℚ) (hm : Nat × Nat)
    (oracle : Nat → Except Unit Unit) (entries : List Json)
    (h : entries.all Json.isObjB = true) (k : Nat) (b : Bool) :
    fastEventLoop skill startOrd daily hm oracle entries k b =
      .ok (specEventCount oracle (fastEntryProcess skill startOrd daily hm) entries k) := by
  induction entries generalizing k b with
  | nil => rfl
  | cons e rest ih =>
    rw [List.all_cons, Bool.and_eq_true] at h
    obtain ⟨he, hrest⟩ := h
    match e, he with
    | .obj kvs, _ =>
      have hstep : fastEventLoop skill startOrd daily hm oracle (Json.obj kvs :: rest) k b =
          (match fastEntryProcess skill startOrd daily hm kvs with
          | .skipped => fastEventLoop skill startOrd daily hm oracle rest k true
          | .raised _ => fastEventLoop skill startOrd daily hm oracle rest k true
          | .inserted _ _ _ =>
            match oracle k with
            | .ok _ => (fastEventLoop skill startOrd daily hm oracle rest (k + 1) true).map (· + 1)
            | .error _ => fastEventLoop skill startOrd daily hm oracle rest (k + 1) true) := rfl
      have hspec : specEventCount oracle (fastEntryProcess skill startOrd daily hm)
          (Json.obj kvs :: rest) k =
          (match fastEntryProcess skill startOrd daily hm kvs with
          | .inserted _ _ _ =>
            match oracle k with
            | .ok _ => specEventCount oracle (fastEntryProcess skill startOrd daily hm) rest (k + 1) + 1
            | .error _ => specEventCount oracle (fastEntryProcess skill startOrd daily hm) rest (k + 1)
          | _ => specEventCount oracle (fastEntryProcess skill startOrd daily hm) rest k) := rfl
      rw [hstep, hspec]
      rcases fastEntryProcess skill startOrd daily hm kvs with e' | _ | ⟨s', q1, q2⟩
      · exact ih hrest k true
      · exact ih hrest k true
      · rcases oracle k with u | u
        · exact ih hrest (k + 1) true
        · rw [ih hrest (k + 1) true]
          rfl

/-- The day loop of `main_cli._create_calendar_events_from_plan_details`
equals the `specEventCount` recurrence when every entry is a dict. -/
theorem cliEventLoop_spec (skill : String) (startOrd : Nat) (daily : ℚ) (hm : Nat × Nat)
    (oracle : Nat → Except Unit Unit) (entries : List Json)
    (h : entries.all Json.isObjB = true) (k : Nat) (b : Bool) :
    cliEventLoop skill startOrd daily hm oracle entries k b =
      .ok (specEventCount oracle (cliEntryProcess skill startOrd daily hm) entries k) := by
  induction entries generalizing k b with
  | nil => rfl
  | cons e rest ih =>
    rw [List.all_cons, Bool.and_eq_true] at h
    obtain ⟨he, hrest⟩ := h
    match e, he with
    | .obj kvs, _ =>
      have hstep : cliEventLoop skill startOrd daily hm oracle (Json.obj kvs :: rest) k b =
          (match cliEntryProcess skill startOrd daily hm kvs with
          | .skipped => cliEventLoop skill startOrd daily hm oracle rest k true
          | .raised _ => cliEventLoop skill startOrd daily hm oracle rest k true
          | .inserted _ _ _ =>
            match oracle k with
            | .ok _ => (cliEventLoop skill startOrd daily hm oracle rest (k + 1) true).map (· + 1)
            | .error _ => cliEventLoop skill startOrd daily hm oracle rest (k + 1) true) := rfl
      have hspec : specEventCount oracle (cliEntryProcess skill startOrd daily hm)
          (Json.obj kvs :: rest) k =
          (match cliEntryProcess skill startOrd daily hm kvs with
          | .inserted _ _ _ =>
            match oracle k with
            | .ok _ => specEventCount oracle (cliEntryProcess skill startOrd daily hm) rest (k + 1) + 1
            | .error _ => specEventCount oracle (cliEntryProcess skill startOrd daily hm) rest (k + 1)
          | _ => specEventCount oracle (cliEntryProcess skill startOrd daily hm) rest k) := rfl
      rw [hstep, hspec]
      rcases cliEntryProcess skill startOrd daily hm kvs with e' | _ | ⟨s', q1, q2⟩
      · exact ih hrest k true
      · exact ih hrest k true
      · rcases oracle k with u | u
        · exact ih hrest (k + 1) true
        · rw [ih hrest (k + 1) true]
          rfl

theorem structureOneTask_ok (startOrd : Nat) (pref : Nat × Nat) (daily : ℚ) (i : Nat)
    (e : Json) (t : StructuredTask) (ls : List String)
    (h : structureOneTask startOrd pref daily i e = .ok (t, ls)) :
    ∃ hoursJ hq, pyGet e "estimated_time_hours" (.num daily) = .ok hoursJ
      ∧ pyFloat hoursJ = .ok hq
      ∧ t.startTime = mkRat (startOrd + i) 1 * 86400 + timeOfDaySecs pref
      ∧ t.endTime = t.startTime + hq * 3600 := by
  unfold structureOneTask at h
  rcases h1 : pyGet e "dayNumber" (.num (mkRat (i + 1) 1)) with e1 | dayNum
  · rw [h1] at h
    simp only [Bind.bind, Except.bind] at h
    exact absurd h (by simp)
  · rw [h1] at h
    simp only [Bind.bind, Except.bind] at h
    by_cases hg1 : startOrd + i ≤ maxOrdinal
    · rw [if_neg (by simpa using hg1)] at h
      rcases h2 : pyGet e "objective" (.str "No objective specified.") with e2 | objective
      · rw [h2] at h
        simp only [Except.bind] at h
        exact absurd h (by simp)
      · rw [h2] at h
        simp only [Except.bind] at h
        rcases h3 : pyGet e "projects_exercises" (.str "") with e3 | projects
        · rw [h3] at h
          simp only [Except.bind] at h
          exact absurd h (by simp)
        · rw [h3] at h
          simp only [Except.bind] at h
          rcases h4 : pyGet e "estimated_time_hours" (.num daily) with e4 | hoursJ
          · rw [h4] at h
            simp only [Except.bind] at h
            exact absurd h (by simp)
          · rw [h4] at h
            simp only [Except.bind] at h
            rcases h5 : pyFloat hoursJ with e5 | hq
            · rw [h5] at h
              simp only [Except.bind] at h
              exact absurd h (by simp)
            · rw [h5] at h
              simp only [Except.bind] at h
              by_cases hg2 : 86400 ≤ qadd (qadd (qmul (mkRat (startOrd + i) 1) 86400)
                    (timeOfDaySecs pref)) (qmul hq 3600)
                  ∧ qadd (qadd (qmul (mkRat (startOrd + i) 1) 86400) (timeOfDaySecs pref))
                      (qmul hq 3600) < qmul (mkRat (maxOrdinal + 1) 1) 86400
              · rw [if_neg (by simpa using hg2)] at h
                injection h with h'
                injection h' with hfst hsnd
                subst hfst
                refine ⟨hoursJ, hq, rfl, h5, ?_, ?_⟩
                · show qadd (qmul (mkRat (startOrd + i) 1) 86400) (timeOfDaySecs pref) =
                      mkRat (startOrd + i) 1 * 86400 + timeOfDaySecs pref
                  simp only [qadd_eq_add, qmul_eq_mul]
                · show qadd (qadd (qmul (mkRat (startOrd + i) 1) 86400) (timeOfDaySecs pref))
                      (qmul hq 3600) =
                    qadd (qmul (mkRat (startOrd + i) 1) 86400) (timeOfDaySecs pref) + hq * 3600
                  simp only [qadd_eq_add, qmul_eq_mul]
              · rw [if_pos (by simpa using hg2)] at h
                exact absurd h (by simp)
    · rw [if_pos (by simpa using hg1)] at h
      exact absurd h (by simp)

theorem structureTasks_spec (startOrd : Nat) (pref : Nat × Nat) (daily : ℚ)
    (entries : List Json) : ∀ (i0 : Nat) (tasks : List StructuredTask) (lines : List String),
    structureTasks startOrd pref daily entries i0 = .ok (tasks, lines) →
    tasks.length = entries.length ∧
    ∀ j t, tasks.get? j = some t →
      ∃ e, entries.get? j = some e ∧
      ∃ hoursJ hq, pyGet e "estimated_time_hours" (.num daily) = .ok hoursJ
        ∧ pyFloat hoursJ = .ok hq
        ∧ t.startTime = mkRat (startOrd + (i0 + j)) 1 * 86400 + timeOfDaySecs pref
        ∧ t.endTime = t.startTime + hq * 3600 := by
  induction entries with
  | nil =>
    intro i0 tasks lines h
    have h' : (Except.ok (([] : List StructuredTask), ([] : List String)) :
        Except PyErr (List StructuredTask × List String)) = .ok (tasks, lines) := h
    injection h' with h''
    injection h'' with hfst hsnd
    subst hfst
    exact ⟨rfl, fun j t hj => absurd hj (by simp)⟩
  | cons e rest ih =>
    intro i0 tasks lines h
    have hred : structureTasks startOrd pref daily (e :: rest) i0 =
        Except.bind (structureOneTask startOrd pref daily i0 e) (fun p1 =>
          Except.bind (structureTasks startOrd pref daily rest (i0 + 1)) (fun p =>
            .ok (p1.1 :: p.1, p1.2 ++ p.2))) := rfl
    rw [hred] at h
    rcases hA : structureOneTask startOrd pref daily i0 e with eA | p1
    · rw [hA] at h
      simp only [Except.bind] at h
      exact absurd h (by simp)
    · rw [hA] at h
      simp only [Except.bind] at h
      rcases hB : structureTasks startOrd pref daily rest (i0 + 1) with eB | p
      · rw [hB] at h
        simp only [Except.bind] at h
        exact absurd h (by simp)
      · rw [hB] at h
        simp only [Except.bind] at h
        injection h with h'
        injection h' with hfst hsnd
        subst hfst
        obtain ⟨hlen, hspec⟩ := ih (i0 + 1) p.1 p.2 (by rw [hB])
        constructor
        · simp [hlen]
        · intro j t hj
          cases j with
          | zero =>
            simp only [List.get?_cons_zero, Option.some_inj] at hj
            subst hj
            obtain ⟨hoursJ, hq, hh1, hh2, hh3, hh4⟩ :=
              structureOneTask_ok startOrd pref daily i0 e p1.1 p1.2 (by rw [hA])
            refine ⟨e, rfl, hoursJ, hq, hh1, hh2, ?_, hh4⟩
            have hidx : ((startOrd : ℤ) + ((i0 : ℤ) + ((0 : ℕ) : ℤ))) = (startOrd : ℤ) + (i0 : ℤ) := by
              push_cast
              ring
            rw [hidx]
            exact hh3
          | succ j' =>
            simp only [List.get?_cons_succ] at hj
            obtain ⟨e', he', hoursJ, hq, hh1, hh2, hh3, hh4⟩ := hspec j' t hj
            refine ⟨e', by simpa using he', hoursJ, hq, hh1, hh2, ?_, hh4⟩
            have hidx : ((startOrd : ℤ) + (((i0 + 1 : ℕ) : ℤ) + (j' : ℤ))) =
                (startOrd : ℤ) + ((i0 : ℤ) + (((j' + 1 : ℕ)) : ℤ)) := by
              push_cast
              ring
            rw [hidx] at hh3
            exact hh3

/-- C3 (amended): in fast.py's `create_calendar_events` and main_cli's
`_create_calendar_events_from_plan_details`, every iteration over dict day
entries is guarded: malformed entries (unparseable dates without a day
number, wrong-typed fields, non-numeric hours) are skipped or defaulted,
the remaining entries are still processed, and no exception escapes the
batch — the loops equal the `specEventCount` recurrence.
planner_service's structuring loop does not have this property
(`c3_planner_loop_raises_counterexample`). -/
theorem c3_malformed_entries_skipped_in_event_loops :
    (∀ (skill : String) (startOrd : Nat) (daily : ℚ) (hm : Nat × Nat)
      (oracle : Nat → Except Unit Unit) (entries : List Json) (k : Nat) (b : Bool),
      entries.all Json.isObjB = true →
      fastEventLoop skill startOrd daily hm oracle entries k b =
        .ok (specEventCount oracle (fastEntryProcess skill startOrd daily hm) entries k))
    ∧ (∀ (skill : String) (startOrd : Nat) (daily : ℚ) (hm : Nat × Nat)
      (oracle : Nat → Except Unit Unit) (entries : List Json) (k : Nat) (b : Bool),
      entries.all Json.isObjB = true →
      cliEventLoop skill startOrd daily hm oracle entries k b =
        .ok (specEventCount oracle (cliEntryProcess skill startOrd daily hm) entries k)) :=
  ⟨fun skill startOrd daily hm oracle entries k b h =>
      fastEventLoop_spec skill startOrd daily hm oracle entries h k b,
   fun skill startOrd daily hm oracle entries k b h =>
      cliEventLoop_spec skill startOrd daily hm oracle entries h k b⟩

/-- C3 counterexample: planner_service's structuring loop raises on a
malformed day entry instead of skipping it — a parsed plan whose second
entry has non-numeric `estimated_time_hours` makes
`generate_structured_plan` raise `ValueError` (from `float("abc")`) even
though the first entry is well-formed. -/
theorem c3_planner_loop_raises_counterexample :
    extractValidJsonPS (pyStrip "```json\n\x7b\"learningPlan\": [\x7b\"dayNumber\": 1, \"objective\": \"A\"\x7d, \x7b\"estimated_time_hours\": \"abc\"\x7d]\x7d\n```") =
      some (.obj [("learningPlan", .arr
        [.obj [("dayNumber", .num 1), ("objective", .str "A")],
         .obj [("estimated_time_hours", .str "abc")]])])
    ∧ generateStructuredPlan ⟨2026, 10, 12⟩
        (.ok "```json\n\x7b\"learningPlan\": [\x7b\"dayNumber\": 1, \"objective\": \"A\"\x7d, \x7b\"estimated_time_hours\": \"abc\"\x7d]\x7d\n```")
        none "Python" 2 "2026-11-02" (some "9 AM") (some 2) = .error .valueError :=
  ⟨rfl, rfl⟩

/-- C3 witness: a mixed batch — a fully-formed entry, an entry whose date
is garbage and that has no day number (skipped), and an entry recovered
through its day number — yields two created events and no exception, in
both loops. -/
theorem c3_witness :
    ([Json.obj [("dayNumber", .num 1), ("date", .str "2026-11-02"), ("estimated_time_hours", .num 2)],
      Json.obj [("objective", .str "bad"), ("date", .str "garbage")],
      Json.obj [("dayNumber", .num 3)]].all Json.isObjB = true)
    ∧ fastEventLoop "Python" 739922 2 (9, 0) (fun _ => .ok ())
        [Json.obj [("dayNumber", .num 1), ("date", .str "2026-11-02"), ("estimated_time_hours", .num 2)],
         Json.obj [("objective", .str "bad"), ("date", .str "garbage")],
         Json.obj [("dayNumber", .num 3)]] 0 false =
      .ok (specEventCount (fun _ => .ok ()) (fastEntryProcess "Python" 739922 2 (9, 0))
        [Json.obj [("dayNumber", .num 1), ("date", .str "2026-11-02"), ("estimated_time_hours", .num 2)],
         Json.obj [("objective", .str "bad"), ("date", .str "garbage")],
         Json.obj [("dayNumber", .num 3)]] 0)
    ∧ fastEventLoop "Python" 739922 2 (9, 0) (fun _ => .ok ())
        [Json.obj [("dayNumber", .num 1), ("date", .str "2026-11-02"), ("estimated_time_hours", .num 2)],
         Json.obj [("objective", .str "bad"), ("date", .str "garbage")],
         Json.obj [("dayNumber", .num 3)]] 0 false = .ok 2
    ∧ cliEventLoop "Python" 739922 2 (9, 0) (fun _ => .ok ())
        [Json.obj [("dayNumber", .num 1), ("date", .str "2026-11-02"), ("estimated_time_hours", .num 2)],
         Json.obj [("objective", .str "bad"), ("date", .str "garbage")],
         Json.obj [("dayNumber", .num 3)]] 0 false =
      .ok (specEventCount (fun _ => .ok ()) (cliEntryProcess "Python" 739922 2 (9, 0))
        [Json.obj [("dayNumber", .num 1), ("date", .str "2026-11-02"), ("estimated_time_hours", .num 2)],
         Json.obj [("objective", .str "bad"), ("date", .str "garbage")],
         Json.obj [("dayNumber", .num 3)]] 0)
    ∧ cliEventLoop "Python" 739922 2 (9, 0) (fun _ => .ok ())
        [Json.obj [("dayNumber", .num 1), ("date", .str "2026-11-02"), ("estimated_time_hours", .num 2)],
         Json.obj [("objective", .str "bad"), ("date", .str "garbage")],
         Json.obj [("dayNumber", .num 3)]] 0 false = .ok 2 :=
  ⟨rfl,
   c3_malformed_entries_skipped_in_event_loops.1 "Python" 739922 2 (9, 0) (fun _ => .ok ())
     [Json.obj [("dayNumber", .num 1), ("date", .str "2026-11-02"), ("estimated_time_hours", .num 2)],
      Json.obj [("objective", .str "bad"), ("date", .str "garbage")],
      Json.obj [("dayNumber", .num 3)]] 0 false rfl,
   rfl,
   c3_malformed_entries_skipped_in_event_loops.2 "Python" 739922 2 (9, 0) (fun _ => .ok ())
     [Json.obj [("dayNumber", .num 1), ("date", .str "2026-11-02"), ("estimated_time_hours", .num 2)],
      Json.obj [("objective", .str "bad"), ("date", .str "garbage")],
      Json.obj [("dayNumber", .num 3)]] 0 false rfl,
   rfl⟩

/-- C4: for every list of structured (dict) tasks, a calendar-insert
failure on one task is logged and that task skipped, every later task is
still attempted (the recurrence runs over all attempted tasks regardless of
earlier outcomes), no already-inserted link is removed (successful links
accumulate in order), and the returned message counts exactly the
successful inserts, with `None` links when that count is zero. -/
theorem c4_failed_inserts_skipped_and_counted (skillName : String) (tasks : List Json)
    (oracle : Nat → Except Unit String) (h : tasks.all Json.isObjB = true) :
    addPlanToCalendar true skillName tasks oracle =
      .ok (if 0 < (specCollectInserts oracle (specAttempted tasks) 0).2 then
            ("Successfully added " ++ toString (specCollectInserts oracle (specAttempted tasks) 0).2
              ++ " tasks to Google Calendar.",
             some (specCollectInserts oracle (specAttempted tasks) 0).1)
          else ("No events were added to Google Calendar. Check logs for details.", none))
    ∧ (specCollectInserts oracle (specAttempted tasks) 0).1.length =
        (specCollectInserts oracle (specAttempted tasks) 0).2 := by
  constructor
  · have hwrap : addPlanToCalendar true skillName tasks oracle =
        (match addPlanLoop skillName oracle tasks 0 false with
        | .error e => .error e
        | .ok p =>
          if p.2 > 0 then
            .ok ("Successfully added " ++ toString p.2 ++ " tasks to Google Calendar.", some p.1)
          else .ok ("No events were added to Google Calendar. Check logs for details.", none)) := by
      unfold addPlanToCalendar
      rcases addPlanLoop skillName oracle tasks 0 false with e | ⟨links, n⟩ <;> rfl
    rw [hwrap, addPlanLoop_spec skillName oracle tasks h 0 false]
    rcases hp : specCollectInserts oracle (specAttempted tasks) 0 with ⟨links, n⟩
    by_cases hn : 0 < n <;> simp [hn]
  · exact specCollectInserts_length oracle (specAttempted tasks) 0

/-- C4 witness: three dict tasks — the first inserts successfully, the
second's insert raises, the third lacks an `endTime` and is skipped — give
the message "Successfully added 1 tasks..." and the single link. -/
theorem c4_witness :
    ([Json.obj [("summary", .str "A"), ("startTime", .str "s0"), ("endTime", .str "e0")],
      Json.obj [("summary", .str "B"), ("startTime", .str "s1"), ("endTime", .str "e1")],
      Json.obj [("summary", .str "C"), ("startTime", .str "s2")]].all Json.isObjB = true)
    ∧ addPlanToCalendar true "Python"
        [Json.obj [("summary", .str "A"), ("startTime", .str "s0"), ("endTime", .str "e0")],
         Json.obj [("summary", .str "B"), ("startTime", .str "s1"), ("endTime", .str "e1")],
         Json.obj [("summary", .str "C"), ("startTime", .str "s2")]]
        (fun k => if k = 0 then .ok "L0" else .error ()) =
      .ok (if 0 < (specCollectInserts (fun k => if k = 0 then .ok "L0" else .error ())
              (specAttempted
                [Json.obj [("summary", .str "A"), ("startTime", .str "s0"), ("endTime", .str "e0")],
                 Json.obj [("summary", .str "B"), ("startTime", .str "s1"), ("endTime", .str "e1")],
                 Json.obj [("summary", .str "C"), ("startTime", .str "s2")]]) 0).2 then
            ("Successfully added " ++ toString (specCollectInserts
                (fun k => if k = 0 then .ok "L0" else .error ())
                (specAttempted
                  [Json.obj [("summary", .str "A"), ("startTime", .str "s0"), ("endTime", .str "e0")],
                   Json.obj [("summary", .str "B"), ("startTime", .str "s1"), ("endTime", .str "e1")],
                   Json.obj [("summary", .str "C"), ("startTime", .str "s2")]]) 0).2
              ++ " tasks to Google Calendar.",
             some (specCollectInserts (fun k => if k = 0 then .ok "L0" else .error ())
                (specAttempted
                  [Json.obj [("summary", .str "A"), ("startTime", .str "s0"), ("endTime", .str "e0")],
                   Json.obj [("summary", .str "B"), ("startTime", .str "s1"), ("endTime", .str "e1")],
                   Json.obj [("summary", .str "C"), ("startTime", .str "s2")]]) 0).1)
          else ("No events were added to Google Calendar. Check logs for details.", none))
    ∧ addPlanToCalendar true "Python"
        [Json.obj [("summary", .str "A"), ("startTime", .str "s0"), ("endTime", .str "e0")],
         Json.obj [("summary", .str "B"), ("startTime", .str "s1"), ("endTime", .str "e1")],
         Json.obj [("summary", .str "C"), ("startTime", .str "s2")]]
        (fun k => if k = 0 then .ok "L0" else .error ()) =
      .ok ("Successfully added 1 tasks to Google Calendar.", some ["L0"]) :=
  ⟨rfl,
   (c4_failed_inserts_skipped_and_counted "Python"
     [Json.obj [("summary", .str "A"), ("startTime", .str "s0"), ("endTime", .str "e0")],
      Json.obj [("summary", .str "B"), ("startTime", .str "s1"), ("endTime", .str "e1")],
      Json.obj [("summary", .str "C"), ("startTime", .str "s2")]]
     (fun k => if k = 0 then .ok "L0" else .error ()) rfl).1,
   rfl⟩

/-- C2 (amended): JSON extraction returns `None` when the recovered
candidate does not parse (after repair) — every non-`None` result is the
parse of the recovered candidate — and it returns the parsed dict whenever
the candidate it actually recovers (planner_service: the first regex
capture, else the brace span; fast.py: the brace span of the fence-stripped
text) parses as a JSON object after the repair passes.  The original
guarantee for every text containing a well-formed fenced JSON object is
refuted by `c2_extraction_counterexample`. -/
theorem c2_extraction_amended :
    (∀ (s : String) (v : Json), extractValidJsonPS s = some v →
      ∃ cand, psCandidate s.data = some cand ∧ jsonLoadsL (subTrailingCommas cand) = some v)
    ∧ (∀ (s : String) (cand : List Char) (kvs : List (String × Json)),
        psCandidate s.data = some cand →
        jsonLoadsL (subTrailingCommas cand) = some (.obj kvs) →
        extractValidJsonPS s = some (.obj kvs))
    ∧ (∀ (s : String) (v : Json), extractValidJsonFast s = some v →
      ∃ cand, fastCandidate s.data = some cand ∧ jsonLoadsL (fastRepair cand) = some v)
    ∧ (∀ (s : String) (cand : List Char) (kvs : List (String × Json)),
        fastCandidate s.data = some cand →
        jsonLoadsL (fastRepair cand) = some (.obj kvs) →
        extractValidJsonFast s = some (.obj kvs)) := by
  refine ⟨?_, ?_, ?_, ?_⟩
  · intro s v h
    unfold extractValidJsonPS at h
    rcases hc : psCandidate s.data with _ | cand
    · rw [hc] at h; exact absurd h (by simp)
    · rw [hc] at h; exact ⟨cand, rfl, h⟩
  · intro s cand kvs h1 h2
    unfold extractValidJsonPS
    rw [h1]
    exact h2
  · intro s v h
    unfold extractValidJsonFast at h
    rcases hc : fastCandidate s.data with _ | cand
    · rw [hc] at h; exact absurd h (by simp)
    · rw [hc] at h; exact ⟨cand, rfl, h⟩
  · intro s cand kvs h1 h2
    unfold extractValidJsonFast
    rw [h1]
    exact h2

/-- C2 counterexample: two texts, each containing a well-formed JSON object
inside a ```json fenced block, on which extraction nevertheless returns
`None` — fast.py's comment stripping corrupts `//` inside a string value,
and planner_service's regex captures the first (malformed) fenced block
even when a later one is well-formed. -/
theorem c2_extraction_counterexample :
    extractValidJsonFast "```json\n\x7b\"url\": \"http://x\"\x7d\n```" = none
    ∧ jsonLoads "\x7b\"url\": \"http://x\"\x7d" = some (.obj [("url", .str "http://x")])
    ∧ "```json\n\x7b\"url\": \"http://x\"\x7d\n```" = "```json\n" ++ "\x7b\"url\": \"http://x\"\x7d" ++ "\n```"
    ∧ extractValidJsonPS "```json\n\x7bbad\x7d\n```\n```json\n\x7b\"a\": 1\x7d\n```" = none
    ∧ jsonLoads "\x7b\"a\": 1\x7d" = some (.obj [("a", .num 1)])
    ∧ "```json\n\x7bbad\x7d\n```\n```json\n\x7b\"a\": 1\x7d\n```" =
        "```json\n\x7bbad\x7d\n```\n" ++ "```json\n" ++ "\x7b\"a\": 1\x7d" ++ "\n```" :=
  ⟨rfl, rfl, rfl, rfl, rfl, rfl⟩

/-- C2 witness: concrete instantiations of all four parts of
`c2_extraction_amended`. -/
theorem c2_extraction_witness :
    (∃ cand, psCandidate ("x \x7b\"a\": 1\x7d y").data = some cand ∧
      jsonLoadsL (subTrailingCommas cand) = some (.obj [("a", .num 1)]))
    ∧ extractValidJsonPS "pre ```json \x7b\"b\": 2,\x7d ``` post" = some (.obj [("b", .num 2)])
    ∧ (∃ cand, fastCandidate ("\x7b\"c\": 3\x7d").data = some cand ∧
      jsonLoadsL (fastRepair cand) = some (.obj [("c", .num 3)]))
    ∧ extractValidJsonFast "```json\n\x7b\"d\": 4,\x7d\n```" = some (.obj [("d", .num 4)]) :=
  ⟨c2_extraction_amended.1 _ _ rfl,
   c2_extraction_amended.2.1 _ ("\x7b\"b\": 2,\x7d").data _ rfl rfl,
   c2_extraction_amended.2.2.1 _ _ rfl,
   c2_extraction_amended.2.2.2 _ ("\x7b\"d\": 4,\x7d").data _ rfl rfl⟩

/-- C9: inputs that are not valid JSON — a fenced object with a trailing
comma before a closing brace or bracket, and (for fast.py) with `//` line
comments — are still extracted as dicts, because the extractors strip
trailing commas and comments before parsing; `jsonLoads` alone rejects the
raw candidates. -/
theorem c9_repair_recovers_invalid_json :
    jsonLoads "\x7b\"a\": 1,\x7d" = none
    ∧ extractValidJsonPS "```json\n\x7b\"a\": 1,\x7d\n```" = some (.obj [("a", .num 1)])
    ∧ jsonLoads "\x7b\n\"a\": 1, // note\n\"b\": [2,]\n\x7d" = none
    ∧ extractValidJsonFast "```json\n\x7b\n\"a\": 1, // note\n\"b\": [2,]\n\x7d\n```" =
        some (.obj [("a", .num 1), ("b", .arr [.num 2])]) :=
  ⟨rfl, rfl, rfl, rfl⟩

/-- C5 (amended): the planner_service / main_cli preferred-time parser
silently returns the default `09:00` whenever it recovers neither a valid
clock time (hour 0-23 and minute 0-59 after AM/PM adjustment) nor a period
keyword; this includes the `None` input and, because every raising path is
guarded, the exception fallback.  fast.py's inline variant does not have
this property (`c5_fast_no_default_counterexample`): it keeps out-of-range
hours. -/
theorem c5_silent_default_on_unrecovered_time (v : Option String)
    (h : psTimeRecovers v = false) : parsePreferredTimePS v = (9, 0) := by
  match v with
  | none => rfl
  | some s =>
    have hps : parsePreferredTimePS (some s) =
        (if s = "" then (9, 0)
        else match timeSearchWith timeMatchAtPS s.data with
          | some (hr, minsOpt, ampm) =>
            if (psAdjustTime hr minsOpt ampm).1 ≤ 23 ∧ (psAdjustTime hr minsOpt ampm).2 ≤ 59 then
              psAdjustTime hr minsOpt ampm
            else (9, 0)
          | none => keywordHours s) := rfl
    have hrec : psTimeRecovers (some s) =
        (if s = "" then false
        else match timeSearchWith timeMatchAtPS s.data with
          | some (hr, minsOpt, ampm) =>
            decide ((psAdjustTime hr minsOpt ampm).1 ≤ 23 ∧ (psAdjustTime hr minsOpt ampm).2 ≤ 59)
          | none => hasPeriodKeyword s) := rfl
    rw [hrec] at h
    rw [hps]
    by_cases hs : s = ""
    · rw [if_pos hs]
    · rw [if_neg hs] at h ⊢
      rcases hm : timeSearchWith timeMatchAtPS s.data with _ | ⟨hr, minsOpt, ampm⟩
      · rw [hm] at h
        have h' : hasPeriodKeyword s = false := h
        unfold hasPeriodKeyword at h'
        simp only [Bool.or_eq_false_iff] at h'
        obtain ⟨⟨⟨ha, hb⟩, hc⟩, hd⟩ := h'
        show keywordHours s = (9, 0)
        unfold keywordHours
        simp [ha, hb, hc, hd]
      · rw [hm] at h
        have h' :
            decide ((psAdjustTime hr minsOpt ampm).1 ≤ 23 ∧
              (psAdjustTime hr minsOpt ampm).2 ≤ 59) = false := h
        show (if (psAdjustTime hr minsOpt ampm).1 ≤ 23 ∧ (psAdjustTime hr minsOpt ampm).2 ≤ 59
            then psAdjustTime hr minsOpt ampm else (9, 0)) = (9, 0)
        rw [if_neg (of_decide_eq_false h')]

/-- C5 counterexample: on `"99"` fast.py's inline parser recovers no valid
clock time (the matched hour 99 exceeds 23) and no period keyword, yet it
returns hour 99 instead of the 09:00 default. -/
theorem c5_fast_no_default_counterexample :
    fastParsePreferredTime "99" = (99, 0)
    ∧ fastParsePreferredTime "99" ≠ (9, 0)
    ∧ hasPeriodKeyword "99" = false
    ∧ 23 < (fastParsePreferredTime "99").1 :=
  ⟨rfl, by decide, rfl, by decide⟩

/-- C5 witness: the API's default preferred time `"Anytime"` recovers
nothing and yields the default. -/
theorem c5_witness :
    psTimeRecovers (some "Anytime") = false
    ∧ parsePreferredTimePS (some "Anytime") = (9, 0) :=
  ⟨rfl, c5_silent_default_on_unrecovered_time (some "Anytime") rfl⟩

/-- C10: after an integration command is handled while a plan is stored,
both stored-plan fields are cleared regardless of the integration result
(the result message is universally quantified), and an immediately repeated
integrate command reports that there is no plan to integrate — in both the
fast.py and main_cli.py handlers. -/
theorem c10_integration_clears_stored_plan (st : ChatState)
    (input inputLower msg msg2 : String)
    (hkw : hasIntegrateKeyword input = true) (hplan : stateHasPlan st = true)
    (hkw2 : hasIntegrateKeyword inputLower = true) :
    (handleIntegrationCommandFast st input msg).1 = true
    ∧ (handleIntegrationCommandFast st input msg).2.1 = ⟨none, []⟩
    ∧ stateHasPlan (handleIntegrationCommandFast st input msg).2.1 = false
    ∧ handleIntegrationCommandFast (handleIntegrationCommandFast st input msg).2.1 input msg2 =
        (true, (handleIntegrationCommandFast st input msg).2.1,
         ["\nAI: I don't have a recent learning plan to integrate. Please ask me to generate one first."])
    ∧ (handleIntegrationCommandCli st inputLower msg).1 = true
    ∧ (handleIntegrationCommandCli st inputLower msg).2.1 = ⟨none, []⟩
    ∧ handleIntegrationCommandCli (handleIntegrationCommandCli st inputLower msg).2.1 inputLower msg2 =
        (true, (⟨none, []⟩ : ChatState),
         ["\nAI: I don't have a plan ready to integrate. Please ask me to generate one first."]) := by
  have hcleared : stateHasPlan ⟨none, []⟩ = false := rfl
  refine ⟨?_, ?_, ?_, ?_, ?_, ?_, ?_⟩ <;>
    simp [handleIntegrationCommandFast, handleIntegrationCommandCli, hkw, hplan, hkw2, hcleared]

/-- C10 witness: a stored plan and the input "integrate". -/
theorem c10_witness :
    hasIntegrateKeyword "integrate" = true
    ∧ stateHasPlan ⟨some (.obj [("skill", .str "P")]), [("skill", .str "P")]⟩ = true
    ∧ (handleIntegrationCommandFast ⟨some (.obj [("skill", .str "P")]), [("skill", .str "P")]⟩
        "integrate" "done").2.1 = ⟨none, []⟩
    ∧ handleIntegrationCommandFast
        (handleIntegrationCommandFast ⟨some (.obj [("skill", .str "P")]), [("skill", .str "P")]⟩
          "integrate" "done").2.1 "integrate" "again" =
        (true, (handleIntegrationCommandFast ⟨some (.obj [("skill", .str "P")]), [("skill", .str "P")]⟩
          "integrate" "done").2.1,
         ["\nAI: I don't have a recent learning plan to integrate. Please ask me to generate one first."])
    ∧ handleIntegrationCommandCli
        (handleIntegrationCommandCli ⟨some (.obj [("skill", .str "P")]), [("skill", .str "P")]⟩
          "integrate" "done").2.1 "integrate" "again" =
        (true, (⟨none, []⟩ : ChatState),
         ["\nAI: I don't have a plan ready to integrate. Please ask me to generate one first."]) :=
  ⟨rfl, rfl,
   (c10_integration_clears_stored_plan ⟨some (.obj [("skill", .str "P")]), [("skill", .str "P")]⟩
     "integrate" "integrate" "done" "again" rfl rfl rfl).2.1,
   (c10_integration_clears_stored_plan ⟨some (.obj [("skill", .str "P")]), [("skill", .str "P")]⟩
     "integrate" "integrate" "done" "again" rfl rfl rfl).2.2.2.1,
   (c10_integration_clears_stored_plan ⟨some (.obj [("skill", .str "P")]), [("skill", .str "P")]⟩
     "integrate" "integrate" "done" "again" rfl rfl rfl).2.2.2.2.2.2⟩

/-- C7: when `credentials.json` is missing, the CLI entry point exits with
code 1 before starting (whatever the API-key state), the API's planner
service fails to initialize leaving the instance `None` (whatever the rest
of the OAuth flow would do), and each of the three endpoints depending on
`get_planner_service` answers 503 with the unavailability detail. -/
theorem c7_missing_credentials_exit_or_503 :
    (∀ apiKeySet : Bool, cliMainPrecheck false apiKeySet = .exited 1)
    ∧ (∀ (apiKeySet : Bool) (oauthRest : Except InitError Unit),
        plannerServiceInstance apiKeySet false oauthRest = none)
    ∧ (∀ aiResult, chatMessageEndpoint none aiResult = .httpError 503 svcUnavailableDetail)
    ∧ (∀ (today : Date) (aiResult : Except String String)
        (block : Option (String × String)) (goal : String) (dur : Int) (sds : String)
        (pref : Option String) (daily : Option ℚ),
        generatePlanEndpoint none today aiResult block goal dur sds pref daily =
          .httpError 503 svcUnavailableDetail)
    ∧ (∀ (up : Bool) (skill : String) (tasks : List Json)
        (oracle : Nat → Except Unit String),
        integratePlanEndpoint none up skill tasks oracle =
          .httpError 503 svcUnavailableDetail) := by
  refine ⟨fun apiKeySet => rfl, fun apiKeySet oauthRest => ?_,
    fun aiResult => rfl, fun _ _ _ _ _ _ _ _ => rfl, fun _ _ _ _ => rfl⟩
  rcases apiKeySet <;> rfl

/-- C6 (amended): the listed failure kinds during chat handling and plan
generation are caught and converted — a model/network exception becomes the
apology string in `handle_chat_message` and `(None, "Error communicating
with AI: ...")` in `generate_structured_plan`, a parse failure becomes
`(None, <policy or invalid-format message>)`, and `POST /generate-plan`
answers 400 carrying any `(None, msg)` result.  The blanket "no exception
escapes" is refuted by `c6_structuring_exception_counterexample`: malformed
numeric fields in an otherwise-parsed plan raise out of
`generate_structured_plan`. -/
theorem c6_listed_failures_become_messages :
    (∀ e, handleChatMessage (.error e) =
      "Sorry, I encountered an error trying to process your message: " ++ e)
    ∧ (∀ (today : Date) (block : Option (String × String)) (goal : String) (dur : Int)
        (sds : String) (pref : Option String) (daily : Option ℚ) (e : String),
      generateStructuredPlan today (.error e) block goal dur sds pref daily =
        .ok (none, "Error communicating with AI: " ++ e))
    ∧ (∀ (today : Date) (rawText : String) (block : Option (String × String)) (goal : String)
        (dur : Int) (sds : String) (pref : Option String) (daily : Option ℚ),
      extractValidJsonPS (pyStrip rawText) = none →
      generateStructuredPlan today (.ok rawText) block goal dur sds pref daily =
        .ok (planFailureMessage block (pyStrip rawText)))
    ∧ (∀ (today : Date) (aiResult : Except String String) (block : Option (String × String))
        (goal : String) (dur : Int) (sds : String) (pref : Option String) (daily : Option ℚ)
        (msg : String),
      generateStructuredPlan today aiResult block goal dur sds pref daily = .ok (none, msg) →
      generatePlanEndpoint (some ()) today aiResult block goal dur sds pref daily =
        .httpError 400 msg) := by
  refine ⟨fun e => rfl, fun _ _ _ _ _ _ _ _ => rfl, ?_, ?_⟩
  · intro today rawText block goal dur sds pref daily hext
    simp only [generateStructuredPlan]
    rw [hext]
  · intro today aiResult block goal dur sds pref daily msg h
    unfold generatePlanEndpoint
    rw [h]

/-- C6 counterexample: a plan that parses but carries
`"duration_days": "ten"` makes `int()` raise `ValueError`, which escapes
`generate_structured_plan`; the endpoint then surfaces an unhandled
exception (FastAPI's generic 500), not a 400. -/
theorem c6_structuring_exception_counterexample :
    generateStructuredPlan ⟨2026, 10, 12⟩
      (.ok "```json\n\x7b\"duration_days\": \"ten\", \"learningPlan\": [\x7b\"dayNumber\": 1\x7d]\x7d\n```")
      none "Python" 2 "2026-11-02" (some "9 AM") (some 2) = .error .valueError
    ∧ generatePlanEndpoint (some ()) ⟨2026, 10, 12⟩
        (.ok "```json\n\x7b\"duration_days\": \"ten\", \"learningPlan\": [\x7b\"dayNumber\": 1\x7d]\x7d\n```")
        none "Python" 2 "2026-11-02" (some "9 AM") (some 2) = .unhandled .valueError :=
  ⟨rfl, rfl⟩

/-- C6 witness: concrete instantiations of all four converted-failure
parts. -/
theorem c6_witness :
    handleChatMessage (.error "boom") =
      "Sorry, I encountered an error trying to process your message: boom"
    ∧ generateStructuredPlan ⟨2026, 10, 12⟩ (.error "down") none "g" 1 "2026-01-01" none none =
        .ok (none, "Error communicating with AI: down")
    ∧ generateStructuredPlan ⟨2026, 10, 12⟩ (.ok "no json") none "g" 1 "2026-01-01" none none =
        .ok (planFailureMessage none (pyStrip "no json"))
    ∧ generatePlanEndpoint (some ()) ⟨2026, 10, 12⟩ (.error "down") none "g" 1 "2026-01-01"
        none none = .httpError 400 "Error communicating with AI: down" :=
  ⟨c6_listed_failures_become_messages.1 "boom",
   c6_listed_failures_become_messages.2.1 ⟨2026, 10, 12⟩ none "g" 1 "2026-01-01" none none "down",
   c6_listed_failures_become_messages.2.2.1 ⟨2026, 10, 12⟩ "no json" none "g" 1 "2026-01-01"
     none none rfl,
   c6_listed_failures_become_messages.2.2.2 ⟨2026, 10, 12⟩ (.error "down") none "g" 1
     "2026-01-01" none none "Error communicating with AI: down" rfl⟩

/-- C8: for every successfully parsed plan in `generate_structured_plan`
(the extraction yields a dict and the call returns structured tasks), the
tasks correspond 1:1 and in order to the entries of the plan's
`learningPlan` array, and the `j`-th task (0-based) starts at the
corrected start ordinal plus `j` days — any model-supplied per-day `date`
field is ignored — combined with the parsed preferred time of day; its
end time is its start time plus that entry's `estimated_time_hours`
(defaulting to the plan-level `daily_hours`, itself defaulting to the
caller's value) in hours. -/
theorem c8_tasks_follow_corrected_schedule (today : Date) (rawText : String)
    (block : Option (String × String)) (goal : String) (dur : Int) (sds : String)
    (pref : Option String) (daily : Option ℚ) (kvs : List (String × Json))
    (tasks : List StructuredTask) (msg : String)
    (hext : extractValidJsonPS (pyStrip rawText) = some (.obj kvs))
    (hok : generateStructuredPlan today (.ok rawText) block goal dur sds pref daily =
      .ok (some tasks, msg)) :
    ∃ entries, pyIterEntries (dictGet kvs "learningPlan" (.arr [])) = .ok entries
      ∧ ∃ dq, pyFloat (dictGet kvs "daily_hours" (.num (daily.getD 2))) = .ok dq
      ∧ tasks.length = entries.length
      ∧ ∀ j t, tasks.get? j = some t →
          ∃ e, entries.get? j = some e
          ∧ ∃ hoursJ hq, pyGet e "estimated_time_hours" (.num dq) = .ok hoursJ
            ∧ pyFloat hoursJ = .ok hq
            ∧ t.startTime = mkRat (correctStartOrdinalPS today
                  (dictGet kvs "start_date" (.str sds)) + j) 1 * 86400
                + timeOfDaySecs (parsePreferredTimeJson
                    (dictGet kvs "preferred_time" (optStrJson pref)))
            ∧ t.endTime = t.startTime + hq * 3600 := by
  simp only [generateStructuredPlan] at hok
  rw [hext] at hok
  have hok2 : (if ¬ (pyTruthy (Json.obj kvs) && jsonHasKey (Json.obj kvs) "learningPlan") then
      (Except.ok (planFailureMessage block (pyStrip rawText)) :
        Except PyErr (Option (List StructuredTask) × String))
    else gspMainPath today kvs goal dur sds pref daily) =
      .ok (some tasks, msg) := hok
  clear hok
  by_cases hg : (pyTruthy (Json.obj kvs) && jsonHasKey (Json.obj kvs) "learningPlan") = true
  · rw [if_neg (by simpa using hg)] at hok2
    unfold gspMainPath at hok2
    rcases h1 : pyInt (dictGet kvs "duration_days" (.num (mkRat dur 1))) with e1 | nd
    · rw [h1] at hok2
      simp only [Bind.bind, Except.bind] at hok2
      exact absurd hok2 (by simp)
    · rw [h1] at hok2
      simp only [Bind.bind, Except.bind] at hok2
      rcases h2 : pyFloat (dictGet kvs "daily_hours" (.num (daily.getD 2))) with e2 | dq
      · rw [h2] at hok2
        simp only [Except.bind] at hok2
        exact absurd hok2 (by simp)
      · rw [h2] at hok2
        simp only [Except.bind] at hok2
        rcases h3 : pyIterEntries (dictGet kvs "learningPlan" (.arr [])) with e3 | entries
        · rw [h3] at hok2
          simp only [Except.bind] at hok2
          exact absurd hok2 (by simp)
        · rw [h3] at hok2
          simp only [Except.bind] at hok2
          rcases h4 : structureTasks
              (correctStartOrdinalPS today (dictGet kvs "start_date" (.str sds)))
              (parsePreferredTimeJson (dictGet kvs "preferred_time" (optStrJson pref)))
              dq entries 0 with e4 | p
          · rw [h4] at hok2
            simp only [Except.bind] at hok2
            exact absurd hok2 (by simp)
          · rw [h4] at hok2
            simp only [Except.bind] at hok2
            by_cases he : p.1.isEmpty = true
            · rw [if_pos he] at hok2
              exact absurd hok2 (by simp)
            · rw [if_neg he] at hok2
              injection hok2 with h'
              injection h' with hfst hsnd
              injection hfst with hv
              have htasks : tasks = p.1 := hv.symm
              subst htasks
              obtain ⟨hlen, hspec⟩ := structureTasks_spec _ _ _ entries 0 p.1 p.2 h4
              refine ⟨entries, rfl, dq, rfl, hlen, ?_⟩
              intro j t hj
              obtain ⟨e, he', hoursJ, hq, hh1, hh2, hh3, hh4⟩ := hspec j t hj
              refine ⟨e, he', hoursJ, hq, hh1, hh2, ?_, hh4⟩
              have hidx : ((correctStartOrdinalPS today
                  (dictGet kvs "start_date" (.str sds)) : ℤ) + (((0 : ℕ) : ℤ) + (j : ℤ))) =
                  (correctStartOrdinalPS today (dictGet kvs "start_date" (.str sds)) : ℤ)
                    + (j : ℤ) := by
                push_cast
                ring
              rw [hidx] at hh3
              exact hh3
  · rw [if_pos (by simpa using hg)] at hok2
    have hcontra : planFailureMessage block (pyStrip rawText) = (some tasks, msg) := by
      injection hok2
    rcases block with _ | ⟨r, m⟩ <;> simp [planFailureMessage] at hcontra

set_option maxRecDepth 10000 in
/-- C8 witness: a concrete two-entry plan (first entry empty, second with
`estimated_time_hours` 1.5) generated on 2026-10-12 with requested start
2026-11-02 and preferred time "9 AM": the two tasks start exactly 0 and 1
days after ordinal 739922 at 09:00, the first lasting the default 2 daily
hours and the second 1.5 hours. -/
theorem c8_witness :
    ∃ entries, pyIterEntries (dictGet
        [("learningPlan", Json.arr [Json.obj [],
          Json.obj [("estimated_time_hours", Json.num (mkRat 3 2))]])]
        "learningPlan" (.arr [])) = .ok entries
      ∧ ∃ dq, pyFloat (dictGet
          [("learningPlan", Json.arr [Json.obj [],
            Json.obj [("estimated_time_hours", Json.num (mkRat 3 2))]])]
          "daily_hours" (.num ((some (2 : ℚ)).getD 2))) = .ok dq
      ∧ ([⟨"Day 1: No objective specified.", Json.str "", 63929293200, 63929300400⟩,
          ⟨"Day 2: No objective specified.", Json.str "", 63929379600, 63929385000⟩] :
            List StructuredTask).length = entries.length
      ∧ ∀ j t, ([⟨"Day 1: No objective specified.", Json.str "", 63929293200, 63929300400⟩,
          ⟨"Day 2: No objective specified.", Json.str "", 63929379600, 63929385000⟩] :
            List StructuredTask).get? j = some t →
          ∃ e, entries.get? j = some e
          ∧ ∃ hoursJ hq, pyGet e "estimated_time_hours" (.num dq) = .ok hoursJ
            ∧ pyFloat hoursJ = .ok hq
            ∧ t.startTime = mkRat (correctStartOrdinalPS ⟨2026, 10, 12⟩
                  (dictGet [("learningPlan", Json.arr [Json.obj [],
                    Json.obj [("estimated_time_hours", Json.num (mkRat 3 2))]])]
                    "start_date" (.str "2026-11-02")) + j) 1 * 86400
                + timeOfDaySecs (parsePreferredTimeJson
                    (dictGet [("learningPlan", Json.arr [Json.obj [],
                      Json.obj [("estimated_time_hours", Json.num (mkRat 3 2))]])]
                      "preferred_time" (optStrJson (some "9 AM"))))
            ∧ t.endTime = t.startTime + hq * 3600 :=
  c8_tasks_follow_corrected_schedule ⟨2026, 10, 12⟩
    "```json\n\x7b\"learningPlan\": [\x7b\x7d, \x7b\"estimated_time_hours\": 1.5\x7d]\x7d\n```"
    none "Python" 2 "2026-11-02" (some "9 AM") (some 2)
    [("learningPlan", Json.arr [Json.obj [],
      Json.obj [("estimated_time_hours", Json.num (mkRat 3 2))]])]
    [⟨"Day 1: No objective specified.", Json.str "", 63929293200, 63929300400⟩,
     ⟨"Day 2: No objective specified.", Json.str "", 63929379600, 63929385000⟩]
    _ rfl rfl

/-- C1 witness: on 2026-10-12 (a Monday), the past date `2026-01-05`
satisfies the hypotheses and both correctors push it forward. -/
theorem c1_witness :
    parseYMD "2026-01-05" = some ⟨2026, 1, 5⟩
    ∧ isValidDate (⟨2026, 10, 12⟩ : Date)
    ∧ dateLt ⟨2026, 1, 5⟩ ⟨2026, 10, 12⟩
    ∧ ((toOrdinal ⟨2026, 10, 12⟩ < correctStartOrdinalPS ⟨2026, 10, 12⟩ (.str "2026-01-05")
      ∧ weekdayOfOrdinal (correctStartOrdinalPS ⟨2026, 10, 12⟩ (.str "2026-01-05")) = 0
      ∧ correctStartOrdinalPS ⟨2026, 10, 12⟩ (.str "2026-01-05") ≤ toOrdinal ⟨2026, 10, 12⟩ + 7)
    ∧ (toOrdinal ⟨2026, 10, 12⟩ < toOrdinal (fastCorrectStartDate ⟨2026, 10, 12⟩ (.str "2026-01-05")).1
      ∧ (fastCorrectStartDate ⟨2026, 10, 12⟩ (.str "2026-01-05")).2 = true
      ∧ ((fastCorrectStartDate ⟨2026, 10, 12⟩ (.str "2026-01-05")).1.day = (⟨2026, 1, 5⟩ : Date).day
          ∨ (fastCorrectStartDate ⟨2026, 10, 12⟩ (.str "2026-01-05")).1.day = 1))) :=
  ⟨rfl, by decide, by decide,
    c1_past_start_date_pushed_to_future ⟨2026, 10, 12⟩ ⟨2026, 1, 5⟩ "2026-01-05"
      (by decide) rfl (by decide)⟩

end GoalPlanner
